import Mathlib

/-!
Verification of the pylbm distance-field construction engine.

This file gives a shallow embedding, over exact rationals, of the three
source files of the repository:

* `pyLBM/domain.py` — the `Domain` class: box seeding (`__add_init`),
  inter-worker label reclassification, and shape application (`__add_elem`);
* `pyLBM/elements/cylinder.py` — the generic `Cylinder` element
  (lateral surface delegated to a 2D base, two cap planes);
* `pylbm/elements/sphere.py` — the `Sphere` constructor.

Machine floats are embedded as exact rationals (the float literals `1.e16`
and `1.e-16` become the exact rationals `10^16` and `10^-16`); numpy arrays
over the grid become functions from integer grid indices; vectorized
array statements become pointwise updates guarded by the same masks.

Components of the repository that are *not* among the source files
(the stencil, the MPI region computation, `elements/base.py` with the 2D
base primitives and the shared `Element` base class, and
`elements/utils.py`) are modelled from the spec and marked as such in
their doc comments.
-/

namespace PyLBM

/-- Fluid / sentinel value: `Domain.valin = 999` in the source. -/
def valin : ℚ := 999

/-- Solid value: `Domain.valout = -1` in the source. -/
def valout : ℚ := -1

/-- The sentinel in the integer `flag` array (`self.flag = self.valin*np.ones(..., dtype='int')`). -/
def flagNone : ℤ := 999

/-- The float literal `1.e16` used by `Cylinder.distance` as an internal
"invalid candidate" marker, embedded exactly. -/
def big16 : ℚ := 10 ^ 16

/-- The float literal `1.e-16` used by `Cylinder.distance` to perturb a zero
axial velocity component (`decal`), embedded exactly. -/
def eps16 : ℚ := 1 / 10 ^ 16

/-- A spatial point: three rational coordinates. -/
abbrev Pt := Fin 3 → ℚ

/-- A node of the halo-padded grid: three integer indices. -/
abbrev Node := Fin 3 → ℤ

/-- A point from its three coordinates. -/
def pt3 (a b c : ℚ) : Pt :=
  fun d => if d.val = 0 then a else if d.val = 1 then b else c

/-- An integer vector (velocity or node) from its three components. -/
def iv3 (a b c : ℤ) : Fin 3 → ℤ :=
  fun d => if d.val = 0 then a else if d.val = 1 then b else c

/-- `np.array(q, np.int)`: conversion of a float to an integer by truncation
toward zero, as the numpy cast does (floor for nonnegative values, ceiling,
written `-⌊-q⌋`, for negative ones). -/
def npInt (q : ℚ) : ℤ := if q < 0 then -(⌊-q⌋) else ⌊q⌋

/-- Exact square root of a natural number, when it exists. -/
def sqrtNat? (n : ℕ) : Option ℕ :=
  let s := Nat.sqrt n
  if s * s = n then some s else none

/-- Exact square root of a rational, when it is rational.  In reduced form
`q = a/b` is a rational square iff `a` and `b` are perfect squares. -/
def sqrtQ? (q : ℚ) : Option ℚ :=
  if q < 0 then none
  else
    match sqrtNat? q.num.natAbs, sqrtNat? q.den with
    | some a, some b => some ((a : ℚ) / (b : ℚ))
    | _, _ => none

/-- Square root over ℚ, exact where a rational root exists (all geometric
configurations used in this development), `0` otherwise. -/
def sqrtQ (q : ℚ) : ℚ := (sqrtQ? q).getD 0

/-!  ## 2D base primitives (`pyLBM/elements/base.py`, not among the sources) -/

/-- A 2D base primitive of a cylinder, with the capability set the spec
gives every shape: point classification and ray distance in the cylinder
frame, plus physical axis-aligned bounds.  `elements/base.py` is not among
the source files; instances are modelled from the spec (§4.1). -/
structure Base2D where
  inside : ℚ → ℚ → Bool
  distF : ℚ → ℚ → ℚ → ℚ → ℚ → List ℤ → ℚ × ℤ
  bl : Pt
  ur : Pt

/-- Modelled from the spec: `Base_Circle.distance` of `elements/base.py` is
not among the source files.  Per §4.1 the base answers, in the cylinder
frame where the section is the unit circle, the smallest
`t ∈ (0, dmax]` with `|p + t·v| = 1`, paired with the single side label,
and the sentinel `(-1, -1)` when no such `t` exists.  The quadratic is
solved exactly over ℚ; a root is reported when it is rational, which
covers every configuration considered in this development. -/
def circleDist (x y vx vy dmax : ℚ) (labels : List ℤ) : ℚ × ℤ :=
  let a := vx ^ 2 + vy ^ 2
  let b := 2 * (x * vx + y * vy)
  let c := x ^ 2 + y ^ 2 - 1
  let lbl := labels.getD 0 (-1)
  if a = 0 then
    if b = 0 then (-1, -1)
    else
      let t := -c / b
      if 0 < t ∧ t ≤ dmax then (t, lbl) else (-1, -1)
  else
    match sqrtQ? (b ^ 2 - 4 * a * c) with
    | none => (-1, -1)
    | some s =>
      let t1 := (-b - s) / (2 * a)
      let t2 := (-b + s) / (2 * a)
      if 0 < t1 ∧ t1 ≤ dmax then (t1, lbl)
      else if 0 < t2 ∧ t2 ≤ dmax then (t2, lbl)
      else (-1, -1)

/-- Modelled from the spec: `Base_Circle` of `elements/base.py` is not among
the source files.  In the cylinder frame the circular section spanned by
`v1, v2` is the unit circle (`point_inside` counts the edge as inside);
its physical axis-aligned bounds along axis `d` extend
`sqrt(v1[d]^2 + v2[d]^2)` from the center (§4.1: bounds exactly contain
the shape). -/
def circleBase (center v1 v2 : Pt) : Base2D where
  inside := fun x y => decide (x ^ 2 + y ^ 2 ≤ 1)
  distF := circleDist
  bl := fun d => center d - sqrtQ ((v1 d) ^ 2 + (v2 d) ^ 2)
  ur := fun d => center d + sqrtQ ((v1 d) ^ 2 + (v2 d) ^ 2)

/-!  ## The cylinder family (`pyLBM/elements/cylinder.py`) -/

/-- A 3×3 rational matrix. -/
abbrev Mat3 := Fin 3 → Fin 3 → ℚ

/-- Matrix–vector product. -/
def mulVec (A : Mat3) (v : Pt) : Pt :=
  fun i => A i 0 * v 0 + A i 1 * v 1 + A i 2 * v 2

/-- Determinant of a 3×3 matrix. -/
def det3 (A : Mat3) : ℚ :=
  A 0 0 * (A 1 1 * A 2 2 - A 1 2 * A 2 1)
  - A 0 1 * (A 1 0 * A 2 2 - A 1 2 * A 2 0)
  + A 0 2 * (A 1 0 * A 2 1 - A 1 1 * A 2 0)

/-- Exact inverse of a 3×3 matrix (adjugate over determinant, all nine
cofactors written out); embeds `np.linalg.inv` in
`Cylinder.change_of_variables`. -/
def inv3 (A : Mat3) : Mat3 :=
  fun i j =>
    (if i.val = 0 then
      (if j.val = 0 then A 1 1 * A 2 2 - A 1 2 * A 2 1
       else if j.val = 1 then -(A 0 1 * A 2 2 - A 0 2 * A 2 1)
       else A 0 1 * A 1 2 - A 0 2 * A 1 1)
     else if i.val = 1 then
      (if j.val = 0 then -(A 1 0 * A 2 2 - A 1 2 * A 2 0)
       else if j.val = 1 then A 0 0 * A 2 2 - A 0 2 * A 2 0
       else -(A 0 0 * A 1 2 - A 0 2 * A 1 0))
     else
      (if j.val = 0 then A 1 0 * A 2 1 - A 1 1 * A 2 0
       else if j.val = 1 then -(A 0 0 * A 2 1 - A 0 1 * A 2 0)
       else A 0 0 * A 1 1 - A 0 1 * A 1 0)) / det3 A

/-- A cylinder element: center, the two base vectors `v1, v2`, the axis
vector `w`, the label list, the fluid flag and the 2D base primitive
(`Cylinder.__init__` / `Cylinder_Circle.__init__`). -/
structure Cyl where
  center : Pt
  v1 : Pt
  v2 : Pt
  w : Pt
  labels : List ℤ
  isfluid : Bool
  base : Base2D

/-- The change-of-variables matrix `A = [v1 | v2 | w]`
(`Cylinder.change_of_variables`). -/
def cylA (c : Cyl) : Mat3 :=
  fun i j => if j.val = 0 then c.v1 i else if j.val = 1 then c.v2 i else c.w i

/-- Its inverse `iA`. -/
def cyliA (c : Cyl) : Mat3 := inv3 (cylA c)

/-- Coordinates of a point in the frame of the cylinder:
`iA · (p - center)`. -/
def cylFrame (c : Cyl) (p : Pt) : Pt :=
  mulVec (cyliA c) (fun d => p d - c.center d)

/-- `Cylinder.point_inside`: the 2D base test on the frame `(x', y')`
together with `|z'| ≤ 1`. -/
def cylPointInside (c : Cyl) (p : Pt) : Bool :=
  let q := cylFrame c p
  c.base.inside (q 0) (q 1) && decide (|q 2| ≤ 1)

/-- `self.label[-1]` (the top-cap label). -/
def cylLabelTop (c : Cyl) : ℤ := c.labels.getD (c.labels.length - 1) 0

/-- `self.label[-2]` (the bottom-cap label). -/
def cylLabelBot (c : Cyl) : ℤ := c.labels.getD (c.labels.length - 2) 0

/-- `Cylinder.distance`, line by line: the lateral query delegated to the
base with the side labels `label[:-2]`; negative lateral answers and
lateral hits with `|z' + alpha·v'_z| > 1` replaced by the `1.e16` marker
(the latter also get border `-1`); the two cap-plane candidates, each
discarded when negative or when the hit point is outside the base, with
the `1.e-16` perturbation of a zero axial velocity; the componentwise
minimum; the top-cap then bottom-cap label overwrites on equality with
the minimum; finally `1.e16` mapped to the `-1` sentinel. -/
def cylDist (c : Cyl) (p : Pt) (v : Pt) (dmax : ℚ) : ℚ × ℤ :=
  let vc := mulVec (cyliA c) v
  let q := cylFrame c p
  let lat := c.base.distF (q 0) (q 1) (vc 0) (vc 1) dmax (c.labels.take (c.labels.length - 2))
  let a1 : ℚ := if lat.1 < 0 then big16 else lat.1
  let zfilter : Bool := decide (0 < a1) && decide (1 < |q 2 + a1 * vc 2|)
  let a2 : ℚ := if zfilter then big16 else a1
  let b2 : ℤ := if zfilter then -1 else lat.2
  let decal : ℚ := if vc 2 = 0 then eps16 else 0
  let at0 : ℚ := (1 - q 2) / (vc 2 + decal)
  let atv : ℚ :=
    if at0 < 0 ∨ ¬c.base.inside (q 0 + at0 * vc 0) (q 1 + at0 * vc 1) = true then big16 else at0
  let ab0 : ℚ := -(1 + q 2) / (vc 2 + decal)
  let abv : ℚ :=
    if ab0 < 0 ∨ ¬c.base.inside (q 0 + ab0 * vc 0) (q 1 + ab0 * vc 1) = true then big16 else ab0
  let am : ℚ := min a2 (min atv abv)
  let b3 : ℤ := if am = atv then cylLabelTop c else b2
  let b4 : ℤ := if am = abv then cylLabelBot c else b3
  let af : ℚ := if am = big16 then -1 else am
  (af, b4)

/-- The capability set `Domain` requires of an element:
`isfluid`, `point_inside`, `distance`, `get_bounds` (spec §3). -/
structure Elem where
  isfluid : Bool
  pointInside : Pt → Bool
  distF : Pt → Pt → ℚ → ℚ × ℤ
  bl : Pt
  ur : Pt

/-- `Cylinder.get_bounds` together with the query functions, packaged as
the element interface: bounds are the base bounds extended by `|w|`
componentwise. -/
def cylElem (c : Cyl) : Elem where
  isfluid := c.isfluid
  pointInside := cylPointInside c
  distF := cylDist c
  bl := fun d => c.base.bl d - |c.w d|
  ur := fun d => c.base.ur d + |c.w d|

/-- `Cylinder_Circle.__init__`: the base is the circle spanned by `v1, v2`. -/
def mkCylinderCircle (center v1 v2 w : Pt) (labels : List ℤ) (isfluid : Bool) : Cyl :=
  { center := center, v1 := v1, v2 := v2, w := w, labels := labels,
    isfluid := isfluid, base := circleBase center v1 v2 }

/-!  ## The sphere constructor (`pylbm/elements/sphere.py`) -/

/-- The attributes `Sphere.__init__` assigns.  `radius` is an `Option`
because the source assigns `self.radius` only inside the `radius >= 0`
branch; for a negative radius the attribute is never set. -/
structure SphereE where
  center : Pt
  radius : Option ℚ
  label : List ℤ
  isfluid : Bool

/-- `Sphere.__str__`: formats the center and `str(self.radius)`.  Reading
`self.radius` when the attribute was never assigned raises
`AttributeError`, embedded as the error case.  (The exact text of the
string is abridged; only success or failure of the attribute read
matters here.) -/
def sphereToString (s : SphereE) : Except String String :=
  match s.radius with
  | none => Except.error "AttributeError: Sphere object has no attribute radius"
  | some r =>
    Except.ok ("Sphere(" ++ toString r.num ++ "/" ++ toString r.den ++ ")"
      ++ (if s.isfluid then " (fluid)" else " (solid)"))

/-- `Sphere.__init__`: assigns the attributes, with `self.radius` set only
when `radius >= 0` (a negative radius is only logged, execution
continues); `Element.__init__` (not among the sources, modelled from the
spec: it stores the label list and the fluid flag, already in the
record) then `log.info(self.__str__())`, whose attribute read fails when
the radius was negative, aborting construction. -/
def sphereInit (center : Pt) (radius : ℚ) (label : List ℤ) (isfluid : Bool) :
    Except String SphereE :=
  let s : SphereE :=
    { center := center, radius := if 0 ≤ radius then some radius else none,
      label := label, isfluid := isfluid }
  match sphereToString s with
  | Except.error e => Except.error e
  | Except.ok _ => Except.ok s

/-!  ## The stencil and the grid partition (modelled from the spec) -/

/-- Modelled from the spec: `stencil.py` is not among the source files.
Per §2/§3 a stencil is an ordered set of distinct integer velocity
vectors; `unvtot` is their count, `uvx/uvy/uvz` the component lists, and
`vmax[axis]` the maximum absolute component on that axis. -/
structure Stencil where
  vels : List (Fin 3 → ℤ)

/-- `stencil.vmax` along one axis: the maximum absolute component
(modelled from the spec, §3). -/
def Stencil.vmax (s : Stencil) (d : Fin 3) : ℤ :=
  s.vels.foldr (fun v m => max |v d| m) 0

/-- The inputs of `Domain.__init__` relevant to field construction: the
stencil, the space step, the global physical box, this worker's index
region per axis (`mpi_topo.get_region`, modelled from the spec as an
explicit input, §2: the worker's contiguous index range per axis), and
the user face labels (two per axis). -/
structure DParams where
  sten : Stencil
  dx : ℚ
  boxlo : Pt
  boxhi : Pt
  region : Fin 3 → ℤ × ℤ
  lbl : Fin 6 → ℤ

/-- Halo width per axis: `stencil.vmax`. -/
def vmaxP (P : DParams) (d : Fin 3) : ℤ := P.sten.vmax d

/-- Local interior point count per axis (`shape_in`):
the size of this worker's region. -/
def szP (P : DParams) (d : Fin 3) : ℤ := (P.region d).2 - (P.region d).1

/-- Halo-padded point count per axis (`shape_halo`). -/
def nHalo (P : DParams) (d : Fin 3) : ℤ := szP P d + 2 * vmaxP P d

/-- Global point count per axis, `(boxhi - boxlo)/dx`
(`create_coords`). -/
def globalSize (P : DParams) (d : Fin 3) : ℚ := (P.boxhi d - P.boxlo d) / P.dx

/-- The first halo coordinate per axis: `create_coords` starts the
halo-padded `linspace` at `boxlo + dx·region_start - dx·(vmax - 0.5)`;
the spacing is exactly `dx`. -/
def physBl (P : DParams) (d : Fin 3) : ℚ :=
  P.boxlo d + P.dx * ((P.region d).1 : ℚ) - P.dx * ((vmaxP P d : ℚ) - 1 / 2)

/-- Physical coordinates of halo-grid node `n`. -/
def coordOf (P : DParams) (n : Node) : Pt :=
  fun d => physBl P d + P.dx * (n d : ℚ)

/-- Membership in the Python slice `slice(h, -h)` of an array of length
`N`: the indices `[h, N-h)` when `h > 0`, and the empty range when
`h = 0` (since `slice(0, 0)` selects nothing). -/
def sliceMemB (h N i : ℤ) : Bool :=
  decide (0 < h) && decide (h ≤ i) && decide (i < N - h)

/-- Membership of a node in the interior (non-halo) region
(`phys_domain = [slice(h, -h) for h in halo_size]`). -/
def interiorB (P : DParams) (n : Node) : Bool :=
  sliceMemB (vmaxP P 0) (nHalo P 0) (n 0) &&
  sliceMemB (vmaxP P 1) (nHalo P 1) (n 1) &&
  sliceMemB (vmaxP P 2) (nHalo P 2) (n 2)

/-- The face index `2i` of axis `i` (lower face). -/
def faceLow (i : Fin 3) : Fin 6 := ⟨2 * i.val, by have := i.isLt; omega⟩

/-- The face index `2i + 1` of axis `i` (upper face). -/
def faceHigh (i : Fin 3) : Fin 6 := ⟨2 * i.val + 1, by have := i.isLt; omega⟩

/-- The label reclassification of `Domain.__init__` (lines 184–189):
a face label becomes the interface sentinel `-2` wherever the worker's
region bound differs from the global bound on that side. -/
def mkBoxLabel (P : DParams) : Fin 6 → ℤ := fun j =>
  match j with
  | 0 => if (P.region 0).1 ≠ 0 then -2 else P.lbl 0
  | 1 => if ((P.region 0).2 : ℚ) ≠ globalSize P 0 then -2 else P.lbl 1
  | 2 => if (P.region 1).1 ≠ 0 then -2 else P.lbl 2
  | 3 => if ((P.region 1).2 : ℚ) ≠ globalSize P 1 then -2 else P.lbl 3
  | 4 => if (P.region 2).1 ≠ 0 then -2 else P.lbl 4
  | 5 => if ((P.region 2).2 : ℚ) ≠ globalSize P 2 then -2 else P.lbl 5

/-- The mutable fields of a `Domain` under construction: the occupancy
array `in_or_out` and, per stencil velocity, the `distance` and `flag`
arrays, all over the halo-padded grid. -/
structure DState where
  ioo : Node → ℚ
  distF : ℕ → Node → ℚ
  flag : ℕ → Node → ℤ

/-- The arrays as created in `Domain.__init__` (filled with `valin`). -/
def initState : DState :=
  { ioo := fun _ => valin, distF := fun _ _ => valin, flag := fun _ _ => flagNone }

/-- Velocity `k` of the stencil (`stencil.unique_velocities[k].v`). -/
def velOf (P : DParams) (k : ℕ) : Fin 3 → ℤ :=
  P.sten.vels.getD k (fun _ => 0)

/-!  ## Phase A: `Domain.__add_init` -/

/-- Whether, in `__add_init`, the loop for axis `iuv` and a velocity with
component `c = vk[iuv]` targets interior node `n`: for `c < 0` the lower
face (skipped when its label is `-2`) and the layers `m ∈ [0, -c)` from
that face, for `c > 0` the upper face and the layers counted from the
top (`indices[iuv+1] = -i-1`, i.e. `m ≥ sz - c`). -/
def axisHitsB (P : DParams) (lbl : Fin 6 → ℤ) (vk : Fin 3 → ℤ) (iuv : Fin 3) (n : Node) : Bool :=
  let c := vk iuv
  let m := n iuv - vmaxP P iuv
  interiorB P n &&
    ((decide (c < 0) && decide (lbl (faceLow iuv) ≠ -2) && decide (m < -c)) ||
     (decide (0 < c) && decide (lbl (faceHigh iuv) ≠ -2) && decide (szP P iuv - c ≤ m)))

/-- The distance value `__add_init` writes at such a node:
`-(i + 0.5)/vk` for the lower face (layer `i = m`), `(i + 0.5)/vk` for
the upper face (layer `i = sz - 1 - m`). -/
def faceVal (P : DParams) (vk : Fin 3 → ℤ) (iuv : Fin 3) (n : Node) : ℚ :=
  let c := vk iuv
  let m := n iuv - vmaxP P iuv
  if c < 0 then ((m : ℚ) + 1 / 2) / (-(c : ℚ))
  else (((szP P iuv - 1 - m : ℤ) : ℚ) + 1 / 2) / (c : ℚ)

/-- The face whose label `__add_init` writes for axis `iuv`. -/
def faceOf (vk : Fin 3 → ℤ) (iuv : Fin 3) : Fin 6 :=
  if vk iuv < 0 then faceLow iuv else faceHigh iuv

/-- One axis of the `__add_init` loop for one velocity, acting on the
pair (distance slice, flag slice): writes are guarded by
`dist_view[indices] > dvik` (the `new_indices` selection). -/
def axisInit (P : DParams) (lbl : Fin 6 → ℤ) (vk : Fin 3 → ℤ) (iuv : Fin 3)
    (df : (Node → ℚ) × (Node → ℤ)) : (Node → ℚ) × (Node → ℤ) :=
  (fun n =>
    if axisHitsB P lbl vk iuv n && decide (faceVal P vk iuv n < df.1 n) then
      faceVal P vk iuv n
    else df.1 n,
   fun n =>
    if axisHitsB P lbl vk iuv n && decide (faceVal P vk iuv n < df.1 n) then
      lbl (faceOf vk iuv)
    else df.2 n)

/-- `Domain.__add_init`: occupancy `valout` everywhere then `valin` on the
interior; then the axis-major loop over the velocity components writes
the box distances and face labels on the interior view.  Writes for
distinct velocities touch distinct `k`-slices, so the loop is a
per-`k` composition of the three axis passes. -/
def addInit (P : DParams) (lbl : Fin 6 → ℤ) (s : DState) : DState :=
  { ioo := fun n => if interiorB P n then valin else valout,
    distF := fun k n =>
      (axisInit P lbl (velOf P k) 2
        (axisInit P lbl (velOf P k) 1
          (axisInit P lbl (velOf P k) 0 (s.distF k, s.flag k)))).1 n,
    flag := fun k n =>
      (axisInit P lbl (velOf P k) 2
        (axisInit P lbl (velOf P k) 1
          (axisInit P lbl (velOf P k) 0 (s.distF k, s.flag k)))).2 n }

/-!  ## Phase B: `Domain.__add_elem` -/

/-- Lower index bound of the element's sub-grid:
`np.maximum(vmax, np.array((elem_bl - phys_bl)/dx, np.int) - vmax)`. -/
def elemNmin (P : DParams) (e : Elem) (d : Fin 3) : ℤ :=
  max (vmaxP P d) (npInt ((e.bl d - physBl P d) / P.dx) - vmaxP P d)

/-- Upper index bound of the element's sub-grid:
`np.minimum(vmax + shape_in, np.array((elem_ur - phys_bl)/dx, np.int) + vmax + 1)`. -/
def elemNmax (P : DParams) (e : Elem) (d : Fin 3) : ℤ :=
  min (vmaxP P d + szP P d) (npInt ((e.ur d - physBl P d) / P.dx) + vmaxP P d + 1)

/-- Membership in the element's sub-grid (`space_slice`). -/
def regB (P : DParams) (e : Elem) (n : Node) : Bool :=
  decide (elemNmin P e 0 ≤ n 0) && decide (n 0 < elemNmax P e 0) &&
  decide (elemNmin P e 1 ≤ n 1) && decide (n 1 < elemNmax P e 1) &&
  decide (elemNmin P e 2 ≤ n 2) && decide (n 2 < elemNmax P e 2)

/-- `elem.point_inside` at a node of the sub-grid. -/
def insideB (P : DParams) (e : Elem) (n : Node) : Bool :=
  e.pointInside (coordOf P n)

/-- `ind_solid`: the element's own solid classification
(`point_inside` for a solid element, its complement for a fluid one). -/
def indSolidB (P : DParams) (e : Elem) (n : Node) : Bool :=
  if e.isfluid then !insideB P e n else insideB P e n

/-- The occupancy after step 2 of `__add_elem`: a solid element sets
`valout` where inside, a fluid element sets `valin` where inside, on
the sub-grid only. -/
def iooAfter (P : DParams) (e : Elem) (s : DState) : Node → ℚ := fun n =>
  if e.isfluid then
    (if regB P e n && insideB P e n then valin else s.ioo n)
  else
    (if regB P e n && insideB P e n then valout else s.ioo n)

/-- The one-step neighbor along a velocity. -/
def nShift (n : Node) (vk : Fin 3 → ℤ) : Node := fun d => n d + vk d

/-- The candidate `(alpha, border)` of the element at a node:
`elem.distance(grid, dx*vk, 1.)`. -/
def alphaOf (P : DParams) (e : Elem) (vk : Fin 3 → ℤ) (n : Node) : ℚ × ℤ :=
  e.distF (coordOf P n) (fun d => P.dx * (vk d : ℚ)) 1

/-- `out_cells`: the neighbor along `vk` is `valout` in the occupancy
updated by step 2. -/
def outCellsB (P : DParams) (e : Elem) (s : DState) (vk : Fin 3 → ℤ) (n : Node) : Bool :=
  decide (iooAfter P e s (nShift n vk) = valout)

/-- The acceptance mask `indx = (alpha > 0) ∧ ind_fluid ∧ out_cells`. -/
def indxB (P : DParams) (e : Elem) (s : DState) (vk : Fin 3 → ℤ) (n : Node) : Bool :=
  decide (0 < (alphaOf P e vk n).1) && !indSolidB P e n && outCellsB P e s vk n

/-- The distance slice after the cleanup pass of `__add_elem` (step 6):
for a fluid element, `valin` on `borderToInt = ¬out_cells ∧ (ioo_view = valin)`;
for a solid element, `valin` on `ind_solid`; on the sub-grid only. -/
def distCleanup (P : DParams) (e : Elem) (s : DState) (vk : Fin 3 → ℤ) (k : ℕ) (n : Node) : ℚ :=
  if e.isfluid then
    (if regB P e n && !outCellsB P e s vk n && decide (iooAfter P e s n = valin) then valin
     else s.distF k n)
  else
    (if regB P e n && indSolidB P e n then valin else s.distF k n)

/-- The flag slice after the same cleanup pass. -/
def flagCleanup (P : DParams) (e : Elem) (s : DState) (vk : Fin 3 → ℤ) (k : ℕ) (n : Node) : ℤ :=
  if e.isfluid then
    (if regB P e n && !outCellsB P e s vk n && decide (iooAfter P e s n = valin) then flagNone
     else s.flag k n)
  else
    (if regB P e n && indSolidB P e n then flagNone else s.flag k n)

/-- The commit condition of step 7 (`ind4`/`ind3`): the acceptance mask
together with the override rule, comparing the candidate to the
post-cleanup stored value — `alpha < stored` for a solid element,
`alpha > stored ∨ stored = valin` for a fluid one. -/
def acceptB (P : DParams) (e : Elem) (s : DState) (vk : Fin 3 → ℤ) (k : ℕ) (n : Node) : Bool :=
  regB P e n && indxB P e s vk n &&
    (if e.isfluid then
      decide (distCleanup P e s vk k n < (alphaOf P e vk n).1) ||
      decide (distCleanup P e s vk k n = valin)
     else
      decide ((alphaOf P e vk n).1 < distCleanup P e s vk k n))

/-- Whether velocity `k` is processed by the `__add_elem` loop: a real
index with a non-zero velocity (`np.any(vk != 0)`). -/
def velActiveB (P : DParams) (k : ℕ) : Bool :=
  decide (k < P.sten.vels.length) &&
    !(decide (velOf P k 0 = 0) && decide (velOf P k 1 = 0) && decide (velOf P k 2 = 0))

/-- `Domain.__add_elem`: occupancy update, then per non-zero velocity the
cleanup pass followed by the guarded commit of accepted candidates. -/
def addElem (P : DParams) (e : Elem) (s : DState) : DState :=
  { ioo := iooAfter P e s,
    distF := fun k n =>
      if velActiveB P k then
        (if acceptB P e s (velOf P k) k n then (alphaOf P e (velOf P k) n).1
         else distCleanup P e s (velOf P k) k n)
      else s.distF k n,
    flag := fun k n =>
      if velActiveB P k then
        (if acceptB P e s (velOf P k) k n then (alphaOf P e (velOf P k) n).2
         else flagCleanup P e s (velOf P k) k n)
      else s.flag k n }

/-- The state after Phase A of `Domain.__init__`: reclassified labels,
fresh arrays, `__add_init`. -/
def phaseA (P : DParams) : DState :=
  addInit P (mkBoxLabel P) initState

/-- `Domain.__init__`: Phase A, then every element of the geometry in
input order. -/
def domainBuild (P : DParams) (elems : List Elem) : DState :=
  elems.foldl (fun s e => addElem P e s) (phaseA P)

/-!  ## A concrete single-worker domain

Box `[0,4] × [0,4] × [0,12]`, `dx = 1`, one worker (the region equals the
global index range), user face labels `0`, velocities
`(1,0,0), (0,1,0), (0,0,1)`, and two solid circular cylinders with
vertical axis: `exCylA` with radius 1 spanning `z ∈ [7,9]`, then `exCylB`
with radius 2 spanning `z ∈ [9,11]`.  Halo coordinates along each axis
are the half-integers starting at `-0.5`. -/

/-- The concrete construction parameters. -/
def exP : DParams :=
  { sten := ⟨[iv3 1 0 0, iv3 0 1 0, iv3 0 0 1]⟩,
    dx := 1,
    boxlo := pt3 0 0 0,
    boxhi := pt3 4 4 12,
    region := fun d => if d.val = 2 then (0, 12) else (0, 4),
    lbl := fun _ => 0 }

/-- First solid cylinder: radius 1, axis `z`, `z ∈ [7, 9]`,
labels `[10, 11, 12]`. -/
def exCylA : Cyl :=
  mkCylinderCircle (pt3 (5/2) (5/2) 8) (pt3 1 0 0) (pt3 0 1 0) (pt3 0 0 1) [10, 11, 12] false

/-- Second solid cylinder: radius 2, axis `z`, `z ∈ [9, 11]`,
labels `[20, 21, 22]`. -/
def exCylB : Cyl :=
  mkCylinderCircle (pt3 (5/2) (5/2) 10) (pt3 2 0 0) (pt3 0 2 0) (pt3 0 0 1) [20, 21, 22] false

/-- The element list: both cylinders, in order. -/
def exElems : List Elem := [cylElem exCylA, cylElem exCylB]

/-- The grid node at physical point `(2.5, 2.5, 7.5)`: inside `exCylA`
(hence solid after the first element), outside `exCylB`, with its
`z`-neighbor `(2.5, 2.5, 8.5)` also inside `exCylA`. -/
def exNode : Node := iv3 3 3 8

/-- The constructed fields for the concrete domain. -/
def exFinal : DState := domainBuild exP exElems

/-!  ## Evaluation lemmas for the concrete domain -/

/-- The third stencil velocity. -/
lemma ex_vel2 : velOf exP 2 = iv3 0 0 1 := rfl

/-- `vmax` of the concrete stencil. -/
lemma ex_vmax (d : Fin 3) : vmaxP exP d = 1 := by
  fin_cases d <;> norm_num [vmaxP, Stencil.vmax, exP, iv3]

/-- The query direction `dx·v_k` for the third velocity. -/
lemma ex_dir2 : (fun d => exP.dx * ((velOf exP 2) d : ℚ)) = pt3 0 0 1 := by
  funext d
  fin_cases d <;> norm_num [velOf, exP, iv3, pt3]

/-- Physical coordinates of the distinguished node. -/
lemma ex_coord_p : coordOf exP exNode = pt3 (5/2) (5/2) (15/2) := by
  funext d
  fin_cases d <;>
    norm_num [coordOf, physBl, exP, exNode, vmaxP, Stencil.vmax, pt3, iv3]

/-- The neighbor of the distinguished node along the third velocity. -/
lemma ex_nbr : nShift exNode (velOf exP 2) = iv3 3 3 9 := by
  funext d
  fin_cases d <;> norm_num [nShift, exNode, velOf, exP, iv3]

/-- Physical coordinates of that neighbor. -/
lemma ex_coord_nbr : coordOf exP (iv3 3 3 9) = pt3 (5/2) (5/2) (17/2) := by
  funext d
  fin_cases d <;>
    norm_num [coordOf, physBl, exP, vmaxP, Stencil.vmax, pt3, iv3]

/-- Frame coordinates of the node w.r.t. the second cylinder. -/
lemma ex_frameB_p : cylFrame exCylB (pt3 (5/2) (5/2) (15/2)) = pt3 0 0 (-5/2) := by
  funext d
  fin_cases d <;>
    norm_num [cylFrame, mulVec, cyliA, cylA, inv3, det3, exCylB, mkCylinderCircle, pt3]

/-- Frame coordinates of the neighbor w.r.t. the second cylinder. -/
lemma ex_frameB_nbr : cylFrame exCylB (pt3 (5/2) (5/2) (17/2)) = pt3 0 0 (-3/2) := by
  funext d
  fin_cases d <;>
    norm_num [cylFrame, mulVec, cyliA, cylA, inv3, det3, exCylB, mkCylinderCircle, pt3]

/-- Frame coordinates of the node w.r.t. the first cylinder. -/
lemma ex_frameA_p : cylFrame exCylA (pt3 (5/2) (5/2) (15/2)) = pt3 0 0 (-1/2) := by
  funext d
  fin_cases d <;>
    norm_num [cylFrame, mulVec, cyliA, cylA, inv3, det3, exCylA, mkCylinderCircle, pt3]

/-- Frame coordinates of the neighbor w.r.t. the first cylinder. -/
lemma ex_frameA_nbr : cylFrame exCylA (pt3 (5/2) (5/2) (17/2)) = pt3 0 0 (1/2) := by
  funext d
  fin_cases d <;>
    norm_num [cylFrame, mulVec, cyliA, cylA, inv3, det3, exCylA, mkCylinderCircle, pt3]

/-- The query direction in the frame of the second cylinder. -/
lemma ex_vcB : mulVec (cyliA exCylB) (pt3 0 0 1) = pt3 0 0 1 := by
  funext d
  fin_cases d <;>
    norm_num [mulVec, cyliA, cylA, inv3, det3, exCylB, mkCylinderCircle, pt3]

/-- The query direction in the frame of the first cylinder. -/
lemma ex_vcA : mulVec (cyliA exCylA) (pt3 0 0 1) = pt3 0 0 1 := by
  funext d
  fin_cases d <;>
    norm_num [mulVec, cyliA, cylA, inv3, det3, exCylA, mkCylinderCircle, pt3]

/-- The node is inside the first cylinder. -/
lemma ex_insideA_p : insideB exP (cylElem exCylA) exNode = true := by
  simp only [insideB, cylElem, ex_coord_p, cylPointInside]
  rw [ex_frameA_p]
  norm_num [exCylA, mkCylinderCircle, circleBase, pt3, abs_of_nonneg, abs_of_nonpos]

/-- The neighbor is inside the first cylinder. -/
lemma ex_insideA_nbr : insideB exP (cylElem exCylA) (iv3 3 3 9) = true := by
  simp only [insideB, cylElem, ex_coord_nbr, cylPointInside]
  rw [ex_frameA_nbr]
  norm_num [exCylA, mkCylinderCircle, circleBase, pt3, abs_of_nonneg, abs_of_nonpos]

/-- The node is outside the second cylinder. -/
lemma ex_insideB_p : insideB exP (cylElem exCylB) exNode = false := by
  simp only [insideB, cylElem, ex_coord_p, cylPointInside]
  rw [ex_frameB_p]
  norm_num [exCylB, mkCylinderCircle, circleBase, pt3, abs_of_nonneg, abs_of_nonpos]

/-- The neighbor is outside the second cylinder. -/
lemma ex_insideB_nbr : insideB exP (cylElem exCylB) (iv3 3 3 9) = false := by
  simp only [insideB, cylElem, ex_coord_nbr, cylPointInside]
  rw [ex_frameB_nbr]
  norm_num [exCylB, mkCylinderCircle, circleBase, pt3, abs_of_nonneg, abs_of_nonpos]

/-- The exact square roots appearing in the concrete bounds. -/
lemma ex_sqrtQ_zero : sqrtQ 0 = 0 := by
  norm_num [sqrtQ, sqrtQ?, sqrtNat?, Nat.sqrt]

/-- Square root of one. -/
lemma ex_sqrtQ_one : sqrtQ 1 = 1 := by
  norm_num [sqrtQ, sqrtQ?, sqrtNat?, Nat.sqrt]

/-- Square root of four. -/
lemma ex_sqrtQ_four : sqrtQ 4 = 2 := by
  norm_num [sqrtQ, sqrtQ?, sqrtNat?, Nat.sqrt]

/-- Sub-grid lower bounds of the first cylinder. -/
lemma ex_nminA (d : Fin 3) : elemNmin exP (cylElem exCylA) d = iv3 1 1 6 d := by
  fin_cases d <;>
    norm_num [elemNmin, cylElem, exCylA, mkCylinderCircle, circleBase, npInt,
      ex_sqrtQ_zero, ex_sqrtQ_one, physBl, exP, vmaxP, Stencil.vmax, pt3, iv3,
      abs_of_nonneg, abs_of_nonpos]

/-- Sub-grid upper bounds of the first cylinder. -/
lemma ex_nmaxA (d : Fin 3) : elemNmax exP (cylElem exCylA) d = iv3 5 5 11 d := by
  fin_cases d <;>
    norm_num [elemNmax, cylElem, exCylA, mkCylinderCircle, circleBase, npInt,
      ex_sqrtQ_zero, ex_sqrtQ_one, physBl, exP, vmaxP, Stencil.vmax, szP, pt3, iv3,
      abs_of_nonneg, abs_of_nonpos]

/-- Sub-grid lower bounds of the second cylinder. -/
lemma ex_nminB (d : Fin 3) : elemNmin exP (cylElem exCylB) d = iv3 1 1 8 d := by
  fin_cases d <;>
    norm_num [elemNmin, cylElem, exCylB, mkCylinderCircle, circleBase, npInt,
      ex_sqrtQ_zero, ex_sqrtQ_four, physBl, exP, vmaxP, Stencil.vmax, pt3, iv3,
      abs_of_nonneg, abs_of_nonpos]

/-- Sub-grid upper bounds of the second cylinder. -/
lemma ex_nmaxB (d : Fin 3) : elemNmax exP (cylElem exCylB) d = iv3 5 5 13 d := by
  fin_cases d <;>
    norm_num [elemNmax, cylElem, exCylB, mkCylinderCircle, circleBase, npInt,
      ex_sqrtQ_zero, ex_sqrtQ_four, physBl, exP, vmaxP, Stencil.vmax, szP, pt3, iv3,
      abs_of_nonneg, abs_of_nonpos]

/-- The node lies in the first cylinder's sub-grid. -/
lemma ex_regA_p : regB exP (cylElem exCylA) exNode = true := by
  simp only [regB, ex_nminA, ex_nmaxA]
  norm_num [iv3, exNode]

/-- The neighbor lies in the first cylinder's sub-grid. -/
lemma ex_regA_nbr : regB exP (cylElem exCylA) (iv3 3 3 9) = true := by
  simp only [regB, ex_nminA, ex_nmaxA]
  norm_num [iv3]

/-- The node lies in the second cylinder's sub-grid. -/
lemma ex_regB_p : regB exP (cylElem exCylB) exNode = true := by
  simp only [regB, ex_nminB, ex_nmaxB]
  norm_num [iv3, exNode]

/-- The neighbor lies in the second cylinder's sub-grid. -/
lemma ex_regB_nbr : regB exP (cylElem exCylB) (iv3 3 3 9) = true := by
  simp only [regB, ex_nminB, ex_nmaxB]
  norm_num [iv3]

/-- The node is interior. -/
lemma ex_int_p : interiorB exP exNode = true := by
  norm_num [interiorB, sliceMemB, vmaxP, Stencil.vmax, nHalo, szP, exP, iv3, exNode]

/-- The neighbor is interior. -/
lemma ex_int_nbr : interiorB exP (iv3 3 3 9) = true := by
  norm_num [interiorB, sliceMemB, vmaxP, Stencil.vmax, nHalo, szP, exP, iv3]

/-- The single worker covers the global box, so no face label is
reclassified. -/
lemma ex_boxlbl (j : Fin 6) : mkBoxLabel exP j = 0 := by
  fin_cases j <;> norm_num [mkBoxLabel, globalSize, exP, pt3]

/-- Labels of the first cylinder. -/
lemma ex_labelsA : exCylA.labels = [10, 11, 12] := rfl

/-- Labels of the second cylinder. -/
lemma ex_labelsB : exCylB.labels = [20, 21, 22] := rfl

/-- The base ray query of the first cylinder is the circle query. -/
lemma ex_distF_A : exCylA.base.distF = circleDist := rfl

/-- The base ray query of the second cylinder is the circle query. -/
lemma ex_distF_B : exCylB.base.distF = circleDist := rfl

/-- The base classification of the first cylinder is the unit-disk test. -/
lemma ex_inside_A (x y : ℚ) : exCylA.base.inside x y = decide (x ^ 2 + y ^ 2 ≤ 1) := rfl

/-- The base classification of the second cylinder is the unit-disk test. -/
lemma ex_inside_B (x y : ℚ) : exCylB.base.inside x y = decide (x ^ 2 + y ^ 2 ≤ 1) := rfl

/-- The first cylinder is solid. -/
lemma ex_fluidA : (cylElem exCylA).isfluid = false := rfl

/-- The second cylinder is solid. -/
lemma ex_fluidB : (cylElem exCylB).isfluid = false := rfl

/-- Ray distance from the node to the first cylinder along `(0,0,1)`:
the node sits just below the top cap (`z' = -1/2`), so the top-cap hit at
`t = 3/2` with the top label `12` is reported (the bottom-cap candidate is
negative, the lateral one invalid). -/
lemma ex_cylDistA_p : cylDist exCylA (pt3 (5/2) (5/2) (15/2)) (pt3 0 0 1) 1 = (3/2, 12) := by
  rw [cylDist, ex_frameA_p, ex_vcA]
  simp only [ex_distF_A, ex_inside_A, ex_labelsA, cylLabelTop, cylLabelBot]
  norm_num [pt3, circleDist, big16, eps16, min_def, abs_of_nonneg, abs_of_nonpos]

/-- Ray distance from the node to the second cylinder along `(0,0,1)`:
the node is `5/2` below the cylinder's bottom cap plane (`z' = -5/2`), so
the bottom-cap hit at `t = 3/2` with the bottom label `21` is reported —
a value larger than the `max_step` argument `1`. -/
lemma ex_cylDistB_p : cylDist exCylB (pt3 (5/2) (5/2) (15/2)) (pt3 0 0 1) 1 = (3/2, 21) := by
  rw [cylDist, ex_frameB_p, ex_vcB]
  simp only [ex_distF_B, ex_inside_B, ex_labelsB, cylLabelTop, cylLabelBot]
  norm_num [pt3, circleDist, big16, eps16, min_def, abs_of_nonneg, abs_of_nonpos]

/-- The candidate of the first cylinder at the node. -/
lemma ex_alphaOfA_p : alphaOf exP (cylElem exCylA) (velOf exP 2) exNode = (3/2, 12) := by
  rw [alphaOf, ex_dir2, ex_coord_p]
  exact ex_cylDistA_p

/-- The candidate of the second cylinder at the node. -/
lemma ex_alphaOfB_p : alphaOf exP (cylElem exCylB) (velOf exP 2) exNode = (3/2, 21) := by
  rw [alphaOf, ex_dir2, ex_coord_p]
  exact ex_cylDistB_p

/-- The node is classified solid by the first cylinder. -/
lemma ex_indSolidA_p : indSolidB exP (cylElem exCylA) exNode = true := by
  rw [indSolidB, ex_fluidA, ex_insideA_p]
  simp

/-- The node is not classified solid by the second cylinder. -/
lemma ex_indSolidB_p : indSolidB exP (cylElem exCylB) exNode = false := by
  rw [indSolidB, ex_fluidB, ex_insideB_p]
  simp

/-- After box seeding, the distance of the node along the third velocity
is the sentinel: the node is not within reach of the top `z` face. -/
lemma ex_s0_dist_p : (phaseA exP).distF 2 exNode = valin := by
  have h0 : axisHitsB exP (mkBoxLabel exP) (velOf exP 2) 0 exNode = false := by
    rw [axisHitsB]
    norm_num [velOf, exP, iv3]
  have h1 : axisHitsB exP (mkBoxLabel exP) (velOf exP 2) 1 exNode = false := by
    rw [axisHitsB]
    norm_num [velOf, exP, iv3]
  have h2 : axisHitsB exP (mkBoxLabel exP) (velOf exP 2) 2 exNode = false := by
    rw [axisHitsB, ex_int_p]
    norm_num [velOf, exP, iv3, exNode, vmaxP, Stencil.vmax, szP, ex_boxlbl, faceLow, faceHigh]
  rw [phaseA, addInit]
  simp only [axisInit, h0, h1, h2, Bool.false_and, Bool.false_eq_true, if_false, initState]

/-- After box seeding, the neighbor is a fluid node. -/
lemma ex_s0_ioo_nbr : (phaseA exP).ioo (iv3 3 3 9) = valin := by
  rw [phaseA, addInit]
  simp only [ex_int_nbr, if_true]

/-- The occupancy written by the first cylinder marks the neighbor solid. -/
lemma ex_iooA_nbr :
    iooAfter exP (cylElem exCylA) (phaseA exP) (iv3 3 3 9) = valout := by
  rw [iooAfter, ex_fluidA]
  simp only [ex_regA_nbr, ex_insideA_nbr, Bool.and_self, if_true, Bool.false_eq_true, if_false]

/-- The occupancy written by the first cylinder marks the node solid. -/
lemma ex_iooA_p :
    iooAfter exP (cylElem exCylA) (phaseA exP) exNode = valout := by
  rw [iooAfter, ex_fluidA]
  simp only [ex_regA_p, ex_insideA_p, Bool.and_self, if_true, Bool.false_eq_true, if_false]

/-- The state after the first element. -/
def exS1 : DState := addElem exP (cylElem exCylA) (phaseA exP)

/-- The constructed fields are those after applying the second element to
the state after the first. -/
lemma ex_final_eq : exFinal = addElem exP (cylElem exCylB) exS1 := rfl

/-- Velocity `2` is processed (a real, non-zero velocity). -/
lemma ex_velAct2 : velActiveB exP 2 = true := by
  rw [velActiveB]
  norm_num [velOf, exP, iv3]

/-- The first element does not commit a candidate at the node (the node is
inside it, hence not fluid for it). -/
lemma ex_acceptA_p :
    acceptB exP (cylElem exCylA) (phaseA exP) (velOf exP 2) 2 exNode = false := by
  rw [acceptB, indxB, ex_indSolidA_p]
  simp

/-- The first element resets the node's distance to the sentinel (it is
solid there), leaving it at the sentinel. -/
lemma ex_s1_dist_p : exS1.distF 2 exNode = valin := by
  rw [exS1, addElem]
  simp only [ex_velAct2, if_true, ex_acceptA_p, Bool.false_eq_true, if_false, distCleanup,
    ex_fluidA, ex_regA_p, ex_indSolidA_p, Bool.and_self, ex_s0_dist_p]

/-- After the first element the neighbor is solid. -/
lemma ex_s1_ioo_nbr : exS1.ioo (iv3 3 3 9) = valout := by
  rw [exS1, addElem]
  exact ex_iooA_nbr

/-- After the first element the node is solid. -/
lemma ex_s1_ioo_p : exS1.ioo exNode = valout := by
  rw [exS1, addElem]
  exact ex_iooA_p

/-- The second element does not reoccupy the neighbor: it stays solid. -/
lemma ex_iooB_nbr :
    iooAfter exP (cylElem exCylB) exS1 (iv3 3 3 9) = valout := by
  rw [iooAfter, ex_fluidB]
  simp only [ex_insideB_nbr, Bool.and_false, Bool.false_eq_true, if_false, ex_s1_ioo_nbr]

/-- The second element does not reoccupy the node: it stays solid. -/
lemma ex_iooB_p :
    iooAfter exP (cylElem exCylB) exS1 exNode = valout := by
  rw [iooAfter, ex_fluidB]
  simp only [ex_insideB_p, Bool.and_false, Bool.false_eq_true, if_false, ex_s1_ioo_p]

/-- At the second element's step the node's neighbor along the third
velocity is solid (`out_cells` holds). -/
lemma ex_outcB_p :
    outCellsB exP (cylElem exCylB) exS1 (velOf exP 2) exNode = true := by
  rw [outCellsB, ex_nbr, ex_iooB_nbr]
  simp

/-- The acceptance mask of the second element holds at the node. -/
lemma ex_indxB_p :
    indxB exP (cylElem exCylB) exS1 (velOf exP 2) exNode = true := by
  rw [indxB, ex_alphaOfB_p, ex_indSolidB_p, ex_outcB_p]
  norm_num

/-- The second element's cleanup leaves the node's stored distance at the
sentinel (the node is not inside it). -/
lemma ex_cleanB_p :
    distCleanup exP (cylElem exCylB) exS1 (velOf exP 2) 2 exNode = valin := by
  rw [distCleanup, ex_fluidB]
  simp only [ex_indSolidB_p, Bool.and_false, Bool.false_eq_true, if_false, ex_s1_dist_p]

/-- The second element commits its candidate `3/2` at the node:
the mask holds and `3/2` is smaller than the stored sentinel. -/
lemma ex_acceptB_p :
    acceptB exP (cylElem exCylB) exS1 (velOf exP 2) 2 exNode = true := by
  rw [acceptB, ex_regB_p, ex_indxB_p, ex_fluidB, ex_cleanB_p, ex_alphaOfB_p]
  norm_num [valin]

/-- The final distance of the (solid) node along the third velocity is the
committed `3/2` — a non-sentinel value exceeding one lattice step. -/
lemma ex_final_dist_p : exFinal.distF 2 exNode = 3/2 := by
  rw [ex_final_eq, addElem]
  simp only [ex_velAct2, if_true, ex_acceptB_p, ex_alphaOfB_p]

/-- The node is solid in the final occupancy. -/
lemma ex_final_ioo_p : exFinal.ioo exNode = valout := by
  rw [ex_final_eq, addElem]
  exact ex_iooB_p

/-!  ## General lemmas on `__add_elem` -/

/-- For a solid element the element's solid classification is its
`point_inside`. -/
lemma indSolidB_of_solid {P : DParams} {e : Elem} (hf : e.isfluid = false) (n : Node) :
    indSolidB P e n = insideB P e n := by
  rw [indSolidB, hf]
  simp

/-- For a fluid element the element's solid classification is the
complement of its `point_inside`. -/
lemma indSolidB_of_fluid {P : DParams} {e : Elem} (hf : e.isfluid = true) (n : Node) :
    indSolidB P e n = !insideB P e n := by
  rw [indSolidB, hf]
  simp

/-- Characterization of the distance written by a solid element at a node
of its sub-grid: the candidate is committed exactly when the acceptance
mask holds and the candidate is strictly smaller than the stored value;
otherwise the node is reset to the sentinel when inside the element, and
untouched when outside. -/
theorem addElem_dist_solid (P : DParams) (e : Elem) (s : DState) (k : ℕ) (n : Node)
    (hf : e.isfluid = false) (hk : velActiveB P k = true) (hr : regB P e n = true) :
    (addElem P e s).distF k n =
      if indxB P e s (velOf P k) n = true ∧ (alphaOf P e (velOf P k) n).1 < s.distF k n then
        (alphaOf P e (velOf P k) n).1
      else if insideB P e n = true then valin else s.distF k n := by
  rw [addElem]
  simp only [hk, if_true]
  by_cases hin : insideB P e n = true
  · have hsol : indSolidB P e n = true := by rw [indSolidB_of_solid hf, hin]
    have hindx : indxB P e s (velOf P k) n = false := by
      rw [indxB, hsol]
      simp
    rw [acceptB, hindx]
    simp only [Bool.and_false, Bool.false_and, Bool.false_eq_true, if_false, hindx, hin, if_true,
      false_and, distCleanup, hf, hr, hsol, Bool.and_self, Bool.true_and]
  · have hsol : indSolidB P e n = false := by
      rw [indSolidB_of_solid hf]
      exact Bool.not_eq_true _ ▸ by simp [hin]
    have hclean : distCleanup P e s (velOf P k) k n = s.distF k n := by
      rw [distCleanup, hf]
      simp only [hsol, Bool.and_false, Bool.false_eq_true, if_false]
    rw [acceptB, hclean, hf]
    by_cases hx : indxB P e s (velOf P k) n = true
    · simp only [hx, hr, Bool.true_and, Bool.and_true, Bool.false_eq_true, if_false, hin,
        true_and, hclean]
      by_cases hcmp : (alphaOf P e (velOf P k) n).1 < s.distF k n
      · simp [hcmp]
      · simp [hcmp]
    · have hx' : indxB P e s (velOf P k) n = false := Bool.eq_false_iff.mpr hx
      simp only [hx', Bool.and_false, Bool.false_and, Bool.false_eq_true, if_false, hclean,
        false_and, hin]

/-- The acceptance mask requires the node to be fluid for the element. -/
lemma indSolidB_false_of_indxB {P : DParams} {e : Elem} {s : DState} {vk : Fin 3 → ℤ} {n : Node}
    (h : indxB P e s vk n = true) : indSolidB P e n = false := by
  rw [indxB] at h
  rcases Bool.and_eq_true_iff.mp h with ⟨h1, _⟩
  rcases Bool.and_eq_true_iff.mp h1 with ⟨_, h3⟩
  simpa using h3

/-- The acceptance mask requires the neighbor to be solid. -/
lemma outCellsB_true_of_indxB {P : DParams} {e : Elem} {s : DState} {vk : Fin 3 → ℤ} {n : Node}
    (h : indxB P e s vk n = true) : outCellsB P e s vk n = true := by
  rw [indxB] at h
  exact (Bool.and_eq_true_iff.mp h).2

/-- Characterization of the distance written by a fluid element at a node
of its sub-grid: the candidate is committed exactly when the acceptance
mask holds and it is larger than the stored value or the stored value is
the sentinel; otherwise the cleanup pass resets to the sentinel the fluid
nodes whose neighbor is not solid, and every other node is untouched. -/
theorem addElem_dist_fluid (P : DParams) (e : Elem) (s : DState) (k : ℕ) (n : Node)
    (hf : e.isfluid = true) (hk : velActiveB P k = true) (hr : regB P e n = true) :
    (addElem P e s).distF k n =
      if indxB P e s (velOf P k) n = true ∧
          (s.distF k n < (alphaOf P e (velOf P k) n).1 ∨ s.distF k n = valin) then
        (alphaOf P e (velOf P k) n).1
      else if outCellsB P e s (velOf P k) n = false ∧ iooAfter P e s n = valin then valin
      else s.distF k n := by
  rw [addElem]
  simp only [hk, if_true]
  by_cases ho : outCellsB P e s (velOf P k) n = true
  · have hclean : distCleanup P e s (velOf P k) k n = s.distF k n := by
      rw [distCleanup, hf]
      simp only [ho, Bool.not_true, Bool.and_false, Bool.false_and, Bool.false_eq_true, if_false]
      exact if_pos trivial
    rw [acceptB, hclean, hf]
    simp only [hr, Bool.true_and, ho]
    by_cases hx : indxB P e s (velOf P k) n = true
    · simp only [hx, Bool.true_and, if_true, true_and]
      by_cases hcmp : s.distF k n < (alphaOf P e (velOf P k) n).1
      · have : (decide (s.distF k n < (alphaOf P e (velOf P k) n).1) ||
            decide (s.distF k n = valin)) = true := by simp [hcmp]
        simp [this, hcmp]
      · by_cases hv : s.distF k n = valin
        · have : (decide (s.distF k n < (alphaOf P e (velOf P k) n).1) ||
              decide (s.distF k n = valin)) = true := by simp [hv]
          simp [this, hv]
        · have : (decide (s.distF k n < (alphaOf P e (velOf P k) n).1) ||
              decide (s.distF k n = valin)) = false := by simp [hcmp, hv]
          simp [this, hcmp, hv, ho]
    · have hx' : indxB P e s (velOf P k) n = false := Bool.eq_false_iff.mpr hx
      simp [hx', ho]
  · have ho' : outCellsB P e s (velOf P k) n = false := Bool.eq_false_iff.mpr ho
    have hx' : indxB P e s (velOf P k) n = false := by
      rw [indxB, ho']
      simp
    have hacc : acceptB P e s (velOf P k) k n = false := by
      rw [acceptB, hx']
      simp
    rw [hacc]
    simp only [Bool.false_eq_true, if_false, hx', false_and, distCleanup, hf, hr, ho',
      Bool.not_false, Bool.true_and, ho']
    by_cases hio : iooAfter P e s n = valin
    · simp [hio]
    · simp [hio]

/-- No field of a node outside the element's sub-grid is modified by
`__add_elem` (the occupancy update, the cleanup pass and the commit are
all restricted to the sub-grid). -/
theorem addElem_outside (P : DParams) (e : Elem) (s : DState) (k : ℕ) (n : Node)
    (hr : regB P e n = false) :
    (addElem P e s).ioo n = s.ioo n ∧
    (addElem P e s).distF k n = s.distF k n ∧
    (addElem P e s).flag k n = s.flag k n := by
  have hio : iooAfter P e s n = s.ioo n := by
    rw [iooAfter]
    by_cases hf : e.isfluid = true <;> simp [hf, hr]
  refine ⟨by rw [addElem]; exact hio, ?_, ?_⟩
  · rw [addElem]
    by_cases hk : velActiveB P k = true
    · have hacc : acceptB P e s (velOf P k) k n = false := by
        rw [acceptB, hr]
        simp
      have hclean : distCleanup P e s (velOf P k) k n = s.distF k n := by
        rw [distCleanup]
        by_cases hf : e.isfluid = true <;> simp [hf, hr]
      simp [hk, hacc, hclean]
    · simp [Bool.eq_false_iff.mpr hk]
  · rw [addElem]
    by_cases hk : velActiveB P k = true
    · have hacc : acceptB P e s (velOf P k) k n = false := by
        rw [acceptB, hr]
        simp
      have hclean : flagCleanup P e s (velOf P k) k n = s.flag k n := by
        rw [flagCleanup]
        by_cases hf : e.isfluid = true <;> simp [hf, hr]
      simp [hk, hacc, hclean]
    · simp [Bool.eq_false_iff.mpr hk]

/-- Applying two solid elements in order: when the first commits its
candidate at a node and the node passes the second element's acceptance
mask as well, the node ends with the smaller of the two candidates. -/
theorem addElem_two_solids_min (P : DParams) (e1 e2 : Elem) (s : DState) (k : ℕ) (n : Node)
    (hf1 : e1.isfluid = false) (hf2 : e2.isfluid = false) (hk : velActiveB P k = true)
    (hr1 : regB P e1 n = true) (hr2 : regB P e2 n = true)
    (hx1 : indxB P e1 s (velOf P k) n = true)
    (hc1 : (alphaOf P e1 (velOf P k) n).1 < s.distF k n)
    (hx2 : indxB P e2 (addElem P e1 s) (velOf P k) n = true) :
    (addElem P e2 (addElem P e1 s)).distF k n =
      min ((alphaOf P e1 (velOf P k) n).1) ((alphaOf P e2 (velOf P k) n).1) := by
  have h1 : (addElem P e1 s).distF k n = (alphaOf P e1 (velOf P k) n).1 := by
    rw [addElem_dist_solid P e1 s k n hf1 hk hr1]
    exact if_pos ⟨hx1, hc1⟩
  have hin2 : insideB P e2 n = false := by
    have := indSolidB_false_of_indxB hx2
    rwa [indSolidB_of_solid hf2] at this
  rw [addElem_dist_solid P e2 (addElem P e1 s) k n hf2 hk hr2, h1]
  by_cases hcmp : (alphaOf P e2 (velOf P k) n).1 < (alphaOf P e1 (velOf P k) n).1
  · rw [if_pos ⟨hx2, hcmp⟩, min_eq_right (le_of_lt hcmp)]
  · rw [if_neg (by intro h; exact hcmp h.2), hin2]
    simp only [Bool.false_eq_true, if_false]
    rw [min_eq_left (le_of_not_lt hcmp)]

/-- A fluid element never decreases a stored distance that is below the
sentinel: the commit only replaces it with a larger candidate, and the
cleanup pass only resets to the sentinel. -/
theorem addElem_fluid_mono (P : DParams) (e : Elem) (s : DState) (k : ℕ) (n : Node)
    (hf : e.isfluid = true) (hlt : s.distF k n < valin) :
    s.distF k n ≤ (addElem P e s).distF k n := by
  by_cases hk : velActiveB P k = true
  · by_cases hr : regB P e n = true
    · rw [addElem_dist_fluid P e s k n hf hk hr]
      by_cases h1 : indxB P e s (velOf P k) n = true ∧
          (s.distF k n < (alphaOf P e (velOf P k) n).1 ∨ s.distF k n = valin)
      · rw [if_pos h1]
        rcases h1.2 with h | h
        · exact le_of_lt h
        · exact absurd h (ne_of_lt hlt)
      · rw [if_neg h1]
        by_cases h2 : outCellsB P e s (velOf P k) n = false ∧ iooAfter P e s n = valin
        · rw [if_pos h2]
          exact le_of_lt hlt
        · rw [if_neg h2]
    · have hr' : regB P e n = false := Bool.eq_false_iff.mpr hr
      rw [(addElem_outside P e s k n hr').2.1]
  · rw [addElem]
    simp [Bool.eq_false_iff.mpr hk]

/-!  ## General lemmas on `__add_init` -/

/-- An interior node satisfies the slice bounds on every axis. -/
lemma interiorB_slice {P : DParams} {n : Node} (h : interiorB P n = true) (d : Fin 3) :
    sliceMemB (vmaxP P d) (nHalo P d) (n d) = true := by
  rw [interiorB] at h
  rcases Bool.and_eq_true_iff.mp h with ⟨h01, h2⟩
  rcases Bool.and_eq_true_iff.mp h01 with ⟨h0, h1⟩
  fin_cases d
  · exact h0
  · exact h1
  · exact h2

/-- Unfolding of the slice-membership test. -/
lemma sliceMemB_bounds {h N i : ℤ} (hs : sliceMemB h N i = true) :
    0 < h ∧ h ≤ i ∧ i < N - h := by
  rw [sliceMemB] at hs
  simp only [Bool.and_eq_true, decide_eq_true_eq] at hs
  exact ⟨hs.1.1, hs.1.2, hs.2⟩

/-- Unfolding of the box-sweep hit test for one axis. -/
lemma axisHitsB_destruct {P : DParams} {lbl : Fin 6 → ℤ} {vk : Fin 3 → ℤ} {iuv : Fin 3} {n : Node}
    (h : axisHitsB P lbl vk iuv n = true) :
    interiorB P n = true ∧
      ((vk iuv < 0 ∧ lbl (faceLow iuv) ≠ -2 ∧ n iuv - vmaxP P iuv < -(vk iuv)) ∨
       (0 < vk iuv ∧ lbl (faceHigh iuv) ≠ -2 ∧ szP P iuv - vk iuv ≤ n iuv - vmaxP P iuv)) := by
  rw [axisHitsB] at h
  simp only [Bool.and_eq_true, Bool.or_eq_true, decide_eq_true_eq] at h
  refine ⟨h.1, ?_⟩
  rcases h.2 with h' | h'
  · exact Or.inl ⟨h'.1.1, h'.1.2, h'.2⟩
  · exact Or.inr ⟨h'.1.1, h'.1.2, h'.2⟩

/-- The interior layer index along an axis lies in `[0, sz)`. -/
lemma layer_bounds {P : DParams} {n : Node} (h : interiorB P n = true) (d : Fin 3) :
    0 ≤ n d - vmaxP P d ∧ n d - vmaxP P d < szP P d := by
  rcases sliceMemB_bounds (interiorB_slice h d) with ⟨_, hle, hlt⟩
  constructor
  · omega
  · have : nHalo P d = szP P d + 2 * vmaxP P d := rfl
    omega

/-- Every value the box sweep writes is strictly positive. -/
lemma faceVal_pos {P : DParams} {lbl : Fin 6 → ℤ} {vk : Fin 3 → ℤ} {iuv : Fin 3} {n : Node}
    (h : axisHitsB P lbl vk iuv n = true) : 0 < faceVal P vk iuv n := by
  rcases axisHitsB_destruct h with ⟨hint, hcase⟩
  rcases layer_bounds hint iuv with ⟨hm0, hmsz⟩
  rw [faceVal]
  rcases hcase with ⟨hc, _, _⟩ | ⟨hc, _, _⟩
  · rw [if_pos hc]
    apply div_pos
    · have : (0 : ℚ) ≤ ((n iuv - vmaxP P iuv : ℤ) : ℚ) := by exact_mod_cast hm0
      linarith
    · have : ((vk iuv : ℚ)) < 0 := by exact_mod_cast hc
      linarith
  · rw [if_neg (by omega)]
    apply div_pos
    · have : (0 : ℚ) ≤ ((szP P iuv - 1 - (n iuv - vmaxP P iuv) : ℤ) : ℚ) := by
        exact_mod_cast (by omega : (0 : ℤ) ≤ szP P iuv - 1 - (n iuv - vmaxP P iuv))
      linarith
    · exact_mod_cast hc

/-- Every value the box sweep writes is strictly below one lattice step. -/
lemma faceVal_lt_one {P : DParams} {lbl : Fin 6 → ℤ} {vk : Fin 3 → ℤ} {iuv : Fin 3} {n : Node}
    (h : axisHitsB P lbl vk iuv n = true) : faceVal P vk iuv n < 1 := by
  rcases axisHitsB_destruct h with ⟨hint, hcase⟩
  rcases layer_bounds hint iuv with ⟨hm0, hmsz⟩
  rw [faceVal]
  rcases hcase with ⟨hc, _, hm⟩ | ⟨hc, _, hm⟩
  · rw [if_pos hc]
    rw [div_lt_one (by exact_mod_cast (by omega : (0 : ℤ) < -(vk iuv)))]
    have h1 : ((n iuv - vmaxP P iuv : ℤ) : ℚ) ≤ ((-(vk iuv) - 1 : ℤ) : ℚ) := by
      exact_mod_cast (by omega : n iuv - vmaxP P iuv ≤ -(vk iuv) - 1)
    push_cast at h1 ⊢
    linarith
  · rw [if_neg (by omega)]
    rw [div_lt_one (by exact_mod_cast hc)]
    have h1 : ((szP P iuv - 1 - (n iuv - vmaxP P iuv) : ℤ) : ℚ) ≤ ((vk iuv - 1 : ℤ) : ℚ) := by
      exact_mod_cast (by omega : szP P iuv - 1 - (n iuv - vmaxP P iuv) ≤ vk iuv - 1)
    push_cast at h1 ⊢
    linarith

/-- Definitional form of one box-sweep pass on the distance slice. -/
lemma axisInit_dist_eq (P : DParams) (lbl : Fin 6 → ℤ) (vk : Fin 3 → ℤ) (iuv : Fin 3)
    (df : (Node → ℚ) × (Node → ℤ)) (n : Node) :
    (axisInit P lbl vk iuv df).1 n =
      if (axisHitsB P lbl vk iuv n && decide (faceVal P vk iuv n < df.1 n)) = true
      then faceVal P vk iuv n else df.1 n := rfl

/-- One pass of the box sweep at one node: either both slices are
untouched, or the axis targets the node, the stored distance is strictly
greater than the face value, and the face value and face label are
written. -/
lemma axisInit_step (P : DParams) (lbl : Fin 6 → ℤ) (vk : Fin 3 → ℤ) (iuv : Fin 3)
    (df : (Node → ℚ) × (Node → ℤ)) (n : Node) :
    ((axisInit P lbl vk iuv df).1 n = df.1 n ∧ (axisInit P lbl vk iuv df).2 n = df.2 n) ∨
    (axisHitsB P lbl vk iuv n = true ∧ faceVal P vk iuv n < df.1 n ∧
     (axisInit P lbl vk iuv df).1 n = faceVal P vk iuv n ∧
     (axisInit P lbl vk iuv df).2 n = lbl (faceOf vk iuv)) := by
  rw [axisInit]
  by_cases hg : (axisHitsB P lbl vk iuv n && decide (faceVal P vk iuv n < df.1 n)) = true
  · rcases Bool.and_eq_true_iff.mp hg with ⟨h1, h2⟩
    exact Or.inr ⟨h1, of_decide_eq_true h2, if_pos hg, if_pos hg⟩
  · have hg' := Bool.eq_false_iff.mpr hg
    exact Or.inl ⟨by simp [hg'], by simp [hg']⟩

/-- One pass of the box sweep never increases the stored distance. -/
lemma axisInit_le (P : DParams) (lbl : Fin 6 → ℤ) (vk : Fin 3 → ℤ) (iuv : Fin 3)
    (df : (Node → ℚ) × (Node → ℤ)) (n : Node) :
    (axisInit P lbl vk iuv df).1 n ≤ df.1 n := by
  rcases axisInit_step P lbl vk iuv df n with ⟨h, _⟩ | ⟨_, hlt, hv, _⟩
  · exact le_of_eq h
  · rw [hv]; exact le_of_lt hlt

/-- The box sweep never increases a stored distance. -/
theorem addInit_dist_le (P : DParams) (lbl : Fin 6 → ℤ) (s : DState) (k : ℕ) (n : Node) :
    (addInit P lbl s).distF k n ≤ s.distF k n := by
  rw [addInit]
  calc (axisInit P lbl (velOf P k) 2
          (axisInit P lbl (velOf P k) 1
            (axisInit P lbl (velOf P k) 0 (s.distF k, s.flag k)))).1 n
      ≤ (axisInit P lbl (velOf P k) 1
          (axisInit P lbl (velOf P k) 0 (s.distF k, s.flag k))).1 n :=
        axisInit_le P lbl (velOf P k) 2 _ n
    _ ≤ (axisInit P lbl (velOf P k) 0 (s.distF k, s.flag k)).1 n :=
        axisInit_le P lbl (velOf P k) 1 _ n
    _ ≤ s.distF k n := axisInit_le P lbl (velOf P k) 0 (s.distF k, s.flag k) n

/-- If the box sweep touches a node's distance or flag for a velocity, then
some axis pass targets it: the final values are that axis's face value and
face label, and the distance strictly decreased. -/
theorem addInit_change (P : DParams) (lbl : Fin 6 → ℤ) (s : DState) (k : ℕ) (n : Node)
    (h : (addInit P lbl s).distF k n ≠ s.distF k n ∨ (addInit P lbl s).flag k n ≠ s.flag k n) :
    ∃ iuv : Fin 3, axisHitsB P lbl (velOf P k) iuv n = true ∧
      (addInit P lbl s).distF k n = faceVal P (velOf P k) iuv n ∧
      (addInit P lbl s).flag k n = lbl (faceOf (velOf P k) iuv) ∧
      (addInit P lbl s).distF k n < s.distF k n := by
  have hd : (addInit P lbl s).distF k n =
      (axisInit P lbl (velOf P k) 2 (axisInit P lbl (velOf P k) 1
        (axisInit P lbl (velOf P k) 0 (s.distF k, s.flag k)))).1 n := rfl
  have hf : (addInit P lbl s).flag k n =
      (axisInit P lbl (velOf P k) 2 (axisInit P lbl (velOf P k) 1
        (axisInit P lbl (velOf P k) 0 (s.distF k, s.flag k)))).2 n := rfl
  rcases axisInit_step P lbl (velOf P k) 2
      (axisInit P lbl (velOf P k) 1 (axisInit P lbl (velOf P k) 0 (s.distF k, s.flag k))) n with
    ⟨hd2, hf2⟩ | ⟨hh, hlt, hv, hl⟩
  · rcases axisInit_step P lbl (velOf P k) 1
        (axisInit P lbl (velOf P k) 0 (s.distF k, s.flag k)) n with
      ⟨hd1, hf1⟩ | ⟨hh, hlt, hv, hl⟩
    · rcases axisInit_step P lbl (velOf P k) 0 (s.distF k, s.flag k) n with
        ⟨hd0, hf0⟩ | ⟨hh, hlt, hv, hl⟩
      · exfalso
        rcases h with h | h
        · exact h (by rw [hd, hd2, hd1, hd0])
        · exact h (by rw [hf, hf2, hf1, hf0])
      · refine ⟨0, hh, ?_, ?_, ?_⟩
        · rw [hd, hd2, hd1, hv]
        · rw [hf, hf2, hf1, hl]
        · rw [hd, hd2, hd1, hv]
          exact hlt
    · refine ⟨1, hh, ?_, ?_, ?_⟩
      · rw [hd, hd2, hv]
      · rw [hf, hf2, hl]
      · rw [hd, hd2, hv]
        exact lt_of_lt_of_le hlt (axisInit_le P lbl (velOf P k) 0 (s.distF k, s.flag k) n)
  · refine ⟨2, hh, ?_, ?_, ?_⟩
    · rw [hd, hv]
    · rw [hf, hl]
    · rw [hd, hv]
      calc faceVal P (velOf P k) 2 n
          < (axisInit P lbl (velOf P k) 1
              (axisInit P lbl (velOf P k) 0 (s.distF k, s.flag k))).1 n := hlt
        _ ≤ (axisInit P lbl (velOf P k) 0 (s.distF k, s.flag k)).1 n :=
            axisInit_le P lbl (velOf P k) 1 _ n
        _ ≤ s.distF k n := axisInit_le P lbl (velOf P k) 0 (s.distF k, s.flag k) n

/-- A non-interior (halo) node is never touched by the box sweep. -/
lemma axisHitsB_noninterior {P : DParams} {lbl : Fin 6 → ℤ} {vk : Fin 3 → ℤ} {iuv : Fin 3}
    {n : Node} (h : interiorB P n = false) : axisHitsB P lbl vk iuv n = false := by
  rw [axisHitsB, h]
  simp

/-- The box sweep leaves the distance and flag of every halo node
unchanged. -/
theorem addInit_noninterior (P : DParams) (lbl : Fin 6 → ℤ) (s : DState) (k : ℕ) (n : Node)
    (h : interiorB P n = false) :
    (addInit P lbl s).distF k n = s.distF k n ∧ (addInit P lbl s).flag k n = s.flag k n := by
  constructor
  · by_contra hne
    rcases addInit_change P lbl s k n (Or.inl hne) with ⟨iuv, hh, _⟩
    rw [axisHitsB_noninterior h] at hh
    exact Bool.false_ne_true hh
  · by_contra hne
    rcases addInit_change P lbl s k n (Or.inr hne) with ⟨iuv, hh, _⟩
    rw [axisHitsB_noninterior h] at hh
    exact Bool.false_ne_true hh

/-- A node targeted along two axes by the sweep (starting from the
sentinel) ends with the smaller of the two face values. -/
theorem addInit_min_two_faces (P : DParams) (lbl : Fin 6 → ℤ) (s : DState) (k : ℕ) (n : Node)
    (hs : s.distF k n = valin)
    (h0 : axisHitsB P lbl (velOf P k) 0 n = true)
    (h1 : axisHitsB P lbl (velOf P k) 1 n = true)
    (h2 : axisHitsB P lbl (velOf P k) 2 n = false) :
    (addInit P lbl s).distF k n =
      min (faceVal P (velOf P k) 0 n) (faceVal P (velOf P k) 1 n) := by
  have hfv0 : faceVal P (velOf P k) 0 n < valin :=
    lt_trans (faceVal_lt_one h0) (by rw [valin]; norm_num)
  have e1 : (axisInit P lbl (velOf P k) 0 (s.distF k, s.flag k)).1 n =
      faceVal P (velOf P k) 0 n := by
    rw [axisInit_dist_eq]
    have hcond : (s.distF k, s.flag k).1 n = valin := hs
    rw [hcond]
    simp [h0, hfv0]
  have e2 : (axisInit P lbl (velOf P k) 1
      (axisInit P lbl (velOf P k) 0 (s.distF k, s.flag k))).1 n =
      min (faceVal P (velOf P k) 0 n) (faceVal P (velOf P k) 1 n) := by
    rw [axisInit_dist_eq, e1]
    by_cases hcmp : faceVal P (velOf P k) 1 n < faceVal P (velOf P k) 0 n
    · simp [h1, hcmp, min_eq_right (le_of_lt hcmp)]
    · simp [h1, hcmp, min_eq_left (le_of_not_lt hcmp)]
  have e3 : (addInit P lbl s).distF k n =
      (axisInit P lbl (velOf P k) 1
        (axisInit P lbl (velOf P k) 0 (s.distF k, s.flag k))).1 n := by
    have hd : (addInit P lbl s).distF k n =
        (axisInit P lbl (velOf P k) 2 (axisInit P lbl (velOf P k) 1
          (axisInit P lbl (velOf P k) 0 (s.distF k, s.flag k)))).1 n := rfl
    rw [hd]
    rcases axisInit_step P lbl (velOf P k) 2
        (axisInit P lbl (velOf P k) 1 (axisInit P lbl (velOf P k) 0 (s.distF k, s.flag k))) n with
      ⟨hdd, _⟩ | ⟨hh, _⟩
    · exact hdd
    · rw [h2] at hh
      exact absurd hh Bool.false_ne_true
  rw [e3, e2]

/-!  ## Positivity of every stored distance -/

/-- The acceptance mask guarantees a strictly positive candidate. -/
lemma alphaOf_pos_of_indxB {P : DParams} {e : Elem} {s : DState} {vk : Fin 3 → ℤ} {n : Node}
    (h : indxB P e s vk n = true) : 0 < (alphaOf P e vk n).1 := by
  rw [indxB] at h
  rcases Bool.and_eq_true_iff.mp h with ⟨h1, _⟩
  rcases Bool.and_eq_true_iff.mp h1 with ⟨h2, _⟩
  exact of_decide_eq_true h2

/-- The cleanup pass writes only the sentinel or keeps the old value. -/
lemma distCleanup_cases (P : DParams) (e : Elem) (s : DState) (vk : Fin 3 → ℤ) (k : ℕ)
    (n : Node) :
    distCleanup P e s vk k n = valin ∨ distCleanup P e s vk k n = s.distF k n := by
  rw [distCleanup]
  by_cases hf : e.isfluid = true <;> simp only [hf] <;> split_ifs <;> simp

/-- `__add_elem` preserves "every distance is the sentinel or positive". -/
lemma addElem_pos_preserve (P : DParams) (e : Elem) (s : DState) (k : ℕ) (n : Node)
    (hprev : s.distF k n = valin ∨ 0 < s.distF k n) :
    (addElem P e s).distF k n = valin ∨ 0 < (addElem P e s).distF k n := by
  rw [addElem]
  by_cases hk : velActiveB P k = true
  · simp only [hk, if_true]
    by_cases hacc : acceptB P e s (velOf P k) k n = true
    · rw [if_pos hacc]
      right
      rw [acceptB] at hacc
      rcases Bool.and_eq_true_iff.mp hacc with ⟨h1, _⟩
      rcases Bool.and_eq_true_iff.mp h1 with ⟨_, hx⟩
      exact alphaOf_pos_of_indxB hx
    · rw [if_neg hacc]
      rcases distCleanup_cases P e s (velOf P k) k n with h | h
      · exact Or.inl h
      · rw [h]; exact hprev
  · simp only [Bool.eq_false_iff.mpr hk, Bool.false_eq_true, if_false]
    exact hprev

/-- The box sweep preserves "every distance is the sentinel or positive". -/
lemma addInit_pos_preserve (P : DParams) (lbl : Fin 6 → ℤ) (s : DState) (k : ℕ) (n : Node)
    (hprev : s.distF k n = valin ∨ 0 < s.distF k n) :
    (addInit P lbl s).distF k n = valin ∨ 0 < (addInit P lbl s).distF k n := by
  by_cases hch : (addInit P lbl s).distF k n = s.distF k n
  · rw [hch]; exact hprev
  · rcases addInit_change P lbl s k n (Or.inl hch) with ⟨iuv, hh, hv, _⟩
    right
    rw [hv]
    exact faceVal_pos hh

/-- Folding the element list preserves the positivity invariant. -/
lemma foldl_pos_preserve (P : DParams) (elems : List Elem) (s : DState) (k : ℕ) (n : Node)
    (hs : s.distF k n = valin ∨ 0 < s.distF k n) :
    (elems.foldl (fun s e => addElem P e s) s).distF k n = valin ∨
      0 < (elems.foldl (fun s e => addElem P e s) s).distF k n := by
  induction elems generalizing s with
  | nil => exact hs
  | cons e es ih => exact ih (addElem P e s) (addElem_pos_preserve P e s k n hs)

/-!  ## Sentinel lemmas for occupancy -/

/-- A node that reads back solid after Phase A is a halo node; its
distance is still the sentinel. -/
theorem phaseA_out_sentinel (P : DParams) (k : ℕ) (n : Node)
    (h : (phaseA P).ioo n = valout) : (phaseA P).distF k n = valin := by
  have hint : interiorB P n = false := by
    by_contra h'
    have h'' : interiorB P n = true := by
      cases hx : interiorB P n
      · exact absurd hx h'
      · rfl
    rw [phaseA, addInit] at h
    simp only [h'', if_true] at h
    rw [valin, valout] at h
    norm_num at h
  rw [phaseA]
  rw [(addInit_noninterior P (mkBoxLabel P) initState k n hint).1]
  rfl

/-- A solid element resets the distance to the sentinel at every node of
its sub-grid that it classifies as solid. -/
theorem addElem_solid_reset (P : DParams) (e : Elem) (s : DState) (k : ℕ) (n : Node)
    (hf : e.isfluid = false) (hk : velActiveB P k = true) (hr : regB P e n = true)
    (hin : insideB P e n = true) : (addElem P e s).distF k n = valin := by
  rw [addElem_dist_solid P e s k n hf hk hr]
  have hx : indxB P e s (velOf P k) n = false := by
    rw [indxB, indSolidB] at *
    rw [hf] at *
    simp only [Bool.false_eq_true, if_false, hin]
    simp
  rw [if_neg (by intro hc; rw [hx] at hc; exact Bool.false_ne_true hc.1), if_pos hin]

/-!  ## The spec-side affected region (claim C6) -/

/-- The region the spec allots to a shape: its bounding box converted to
grid indices, expanded by `vmax` per axis, clipped to the local
halo-padded grid. -/
def specRegion (P : DParams) (e : Elem) (n : Node) : Prop :=
  ∀ d : Fin 3,
    max 0 (npInt ((e.bl d - physBl P d) / P.dx) - vmaxP P d) ≤ n d ∧
    n d < min (nHalo P d) (npInt ((e.ur d - physBl P d) / P.dx) + vmaxP P d + 1)

/-- The per-axis maximum velocity component is nonnegative. -/
lemma vmaxP_nonneg (P : DParams) (d : Fin 3) : 0 ≤ vmaxP P d := by
  rw [vmaxP, Stencil.vmax]
  induction P.sten.vels with
  | nil => simp
  | cons v vs ih =>
    simp only [List.foldr_cons]
    exact le_trans ih (le_max_right _ _)

/-- Unfolding of the sub-grid membership test. -/
lemma regB_destruct {P : DParams} {e : Elem} {n : Node} (h : regB P e n = true) (d : Fin 3) :
    elemNmin P e d ≤ n d ∧ n d < elemNmax P e d := by
  rw [regB] at h
  simp only [Bool.and_eq_true, decide_eq_true_eq] at h
  fin_cases d
  · exact ⟨h.1.1.1.1.1, h.1.1.1.1.2⟩
  · exact ⟨h.1.1.1.2, h.1.1.2⟩
  · exact ⟨h.1.2, h.2⟩

/-- The code's sub-grid is contained in the spec's region. -/
lemma regB_in_specRegion {P : DParams} {e : Elem} {n : Node} (h : regB P e n = true) :
    specRegion P e n := by
  intro d
  rcases regB_destruct h d with ⟨hlo, hhi⟩
  have hv := vmaxP_nonneg P d
  constructor
  · refine le_trans ?_ hlo
    rw [elemNmin]
    exact max_le_max (by exact hv) le_rfl
  · refine lt_of_lt_of_le hhi ?_
    rw [elemNmax]
    refine min_le_min ?_ le_rfl
    rw [nHalo]
    omega

/-!  ## Face labels (claim C7) -/

/-- A targeted face has a label different from the interface sentinel. -/
lemma axisHitsB_label {P : DParams} {lbl : Fin 6 → ℤ} {vk : Fin 3 → ℤ} {iuv : Fin 3} {n : Node}
    (h : axisHitsB P lbl vk iuv n = true) : lbl (faceOf vk iuv) ≠ -2 := by
  rcases axisHitsB_destruct h with ⟨_, hc | hc⟩
  · rw [faceOf, if_pos hc.1]
    exact hc.2.1
  · rw [faceOf, if_neg (by omega)]
    exact hc.2.1

/-- Any flag the box sweep leaves different from the initial one is the
label of a face that is not an interface face. -/
theorem addInit_flag_source (P : DParams) (lbl : Fin 6 → ℤ) (s : DState) (k : ℕ) (n : Node)
    (h : (addInit P lbl s).distF k n ≠ s.distF k n ∨ (addInit P lbl s).flag k n ≠ s.flag k n) :
    ∃ j : Fin 6, lbl j ≠ -2 ∧ (addInit P lbl s).flag k n = lbl j := by
  rcases addInit_change P lbl s k n h with ⟨iuv, hh, _, hl, _⟩
  exact ⟨faceOf (velOf P k) iuv, axisHitsB_label hh, hl⟩

/-- Characterization of the label reclassification: a lower face becomes
the interface sentinel exactly when the region does not start at the
global start; an upper face exactly when it does not end at the global
end; otherwise the user label is kept. -/
theorem mkBoxLabel_char (P : DParams) (i : Fin 3) :
    mkBoxLabel P (faceLow i) =
      (if (P.region i).1 ≠ 0 then -2 else P.lbl (faceLow i)) ∧
    mkBoxLabel P (faceHigh i) =
      (if ((P.region i).2 : ℚ) ≠ globalSize P i then -2 else P.lbl (faceHigh i)) := by
  fin_cases i <;> exact ⟨rfl, rfl⟩

/-!  ## The cylinder ray query (claims C5 and C10) -/

/-- A valid candidate parameter of the cylinder ray query, written
independently of the query's own control flow: either the base's lateral
answer — nonnegative, and satisfying the axial cut `|z' + t·v_z| ≤ 1`
when positive — or a cap-plane parameter that is nonnegative with its hit
point inside the base. -/
def cylCand (c : Cyl) (p : Pt) (v : Pt) (dmax : ℚ) (t : ℚ) : Prop :=
  let vc := mulVec (cyliA c) v
  let q := cylFrame c p
  let lat := c.base.distF (q 0) (q 1) (vc 0) (vc 1) dmax (c.labels.take (c.labels.length - 2))
  let decal : ℚ := if vc 2 = 0 then eps16 else 0
  (t = lat.1 ∧ 0 ≤ lat.1 ∧ (0 < lat.1 → |q 2 + lat.1 * vc 2| ≤ 1)) ∨
  (t = (1 - q 2) / (vc 2 + decal) ∧ 0 ≤ t ∧
    c.base.inside (q 0 + t * vc 0) (q 1 + t * vc 1) = true) ∨
  (t = -(1 + q 2) / (vc 2 + decal) ∧ 0 ≤ t ∧
    c.base.inside (q 0 + t * vc 0) (q 1 + t * vc 1) = true)

/-- The query direction in the cylinder frame. -/
def cylVc (c : Cyl) (v : Pt) : Pt := mulVec (cyliA c) v

/-- The base's lateral answer (`self.base.distance` with the side
labels). -/
def cylLat (c : Cyl) (p : Pt) (v : Pt) (dmax : ℚ) : ℚ × ℤ :=
  c.base.distF (cylFrame c p 0) (cylFrame c p 1) (cylVc c v 0) (cylVc c v 1) dmax
    (c.labels.take (c.labels.length - 2))

/-- The epsilon perturbation of the axial velocity (`decal`). -/
def cylDecal (c : Cyl) (v : Pt) : ℚ :=
  if cylVc c v 2 = 0 then eps16 else 0

/-- The top-cap plane parameter (`alpha_top` before filtering). -/
def cylTop0 (c : Cyl) (p : Pt) (v : Pt) : ℚ :=
  (1 - cylFrame c p 2) / (cylVc c v 2 + cylDecal c v)

/-- The bottom-cap plane parameter (`alpha_bot` before filtering). -/
def cylBot0 (c : Cyl) (p : Pt) (v : Pt) : ℚ :=
  -(1 + cylFrame c p 2) / (cylVc c v 2 + cylDecal c v)

/-- Validity of the lateral candidate: nonnegative, and within the axial
cut when positive. -/
def latOK (c : Cyl) (p : Pt) (v : Pt) (dmax : ℚ) : Prop :=
  0 ≤ (cylLat c p v dmax).1 ∧
    (0 < (cylLat c p v dmax).1 →
      |cylFrame c p 2 + (cylLat c p v dmax).1 * cylVc c v 2| ≤ 1)

/-- Validity of the top-cap candidate: nonnegative with its hit point
inside the base. -/
def topOK (c : Cyl) (p : Pt) (v : Pt) : Prop :=
  0 ≤ cylTop0 c p v ∧
    c.base.inside (cylFrame c p 0 + cylTop0 c p v * cylVc c v 0)
      (cylFrame c p 1 + cylTop0 c p v * cylVc c v 1) = true

/-- Validity of the bottom-cap candidate. -/
def botOK (c : Cyl) (p : Pt) (v : Pt) : Prop :=
  0 ≤ cylBot0 c p v ∧
    c.base.inside (cylFrame c p 0 + cylBot0 c p v * cylVc c v 0)
      (cylFrame c p 1 + cylBot0 c p v * cylVc c v 1) = true

/-- The lateral candidate after the two filters of `Cylinder.distance`
(negative answers and axial-cut violations become the `1.e16` marker). -/
def cylLatF (c : Cyl) (p : Pt) (v : Pt) (dmax : ℚ) : ℚ :=
  let a1 : ℚ := if (cylLat c p v dmax).1 < 0 then big16 else (cylLat c p v dmax).1
  if (decide (0 < a1) && decide (1 < |cylFrame c p 2 + a1 * cylVc c v 2|)) then big16 else a1

/-- The lateral border after the same filters. -/
def cylLatBorder (c : Cyl) (p : Pt) (v : Pt) (dmax : ℚ) : ℤ :=
  let a1 : ℚ := if (cylLat c p v dmax).1 < 0 then big16 else (cylLat c p v dmax).1
  if (decide (0 < a1) && decide (1 < |cylFrame c p 2 + a1 * cylVc c v 2|)) then -1
  else (cylLat c p v dmax).2

/-- The top-cap candidate after its filter. -/
def cylTopF (c : Cyl) (p : Pt) (v : Pt) : ℚ :=
  if cylTop0 c p v < 0 ∨
      ¬c.base.inside (cylFrame c p 0 + cylTop0 c p v * cylVc c v 0)
        (cylFrame c p 1 + cylTop0 c p v * cylVc c v 1) = true then big16
  else cylTop0 c p v

/-- The bottom-cap candidate after its filter. -/
def cylBotF (c : Cyl) (p : Pt) (v : Pt) : ℚ :=
  if cylBot0 c p v < 0 ∨
      ¬c.base.inside (cylFrame c p 0 + cylBot0 c p v * cylVc c v 0)
        (cylFrame c p 1 + cylBot0 c p v * cylVc c v 1) = true then big16
  else cylBot0 c p v

/-- The minimum over the three filtered candidates (`np.amin`). -/
def cylMin (c : Cyl) (p : Pt) (v : Pt) (dmax : ℚ) : ℚ :=
  min (cylLatF c p v dmax) (min (cylTopF c p v) (cylBotF c p v))

/-- `Cylinder.distance` in terms of the named candidates: the returned
parameter is the minimum (with `1.e16` mapped to `-1`), and the label is
the bottom label when the minimum equals the filtered bottom candidate,
else the top label when it equals the filtered top candidate, else the
filtered lateral border. -/
lemma cylDist_eq (c : Cyl) (p : Pt) (v : Pt) (dmax : ℚ) :
    cylDist c p v dmax =
      ((if cylMin c p v dmax = big16 then -1 else cylMin c p v dmax),
       (if cylMin c p v dmax = cylBotF c p v then cylLabelBot c
        else if cylMin c p v dmax = cylTopF c p v then cylLabelTop c
        else cylLatBorder c p v dmax)) := rfl

/-- A valid lateral candidate passes both filters. -/
lemma cylLatF_of_latOK {c : Cyl} {p v : Pt} {dmax : ℚ} (h : latOK c p v dmax) :
    cylLatF c p v dmax = (cylLat c p v dmax).1 := by
  rcases h with ⟨h0, hcut⟩
  rw [cylLatF]
  simp only [not_lt.mpr h0, if_false]
  rcases lt_or_eq_of_le h0 with hpos | hzero
  · have : ¬(1 < |cylFrame c p 2 + (cylLat c p v dmax).1 * cylVc c v 2|) :=
      not_lt.mpr (hcut hpos)
    simp [this]
  · simp [← hzero]

/-- An invalid lateral candidate is replaced by the `1.e16` marker. -/
lemma cylLatF_of_not_latOK {c : Cyl} {p v : Pt} {dmax : ℚ} (h : ¬latOK c p v dmax) :
    cylLatF c p v dmax = big16 := by
  rw [latOK] at h
  push_neg at h
  rw [cylLatF]
  by_cases hneg : (cylLat c p v dmax).1 < 0
  · simp only [hneg, if_true]
    by_cases hf : (decide ((0:ℚ) < big16) &&
        decide (1 < |cylFrame c p 2 + big16 * cylVc c v 2|)) = true
    · rw [if_pos hf]
    · rw [if_neg hf]
  · rcases h (not_lt.mp hneg) with ⟨hpos, hcut⟩
    simp only [hneg, if_false]
    have : (decide (0 < (cylLat c p v dmax).1) &&
        decide (1 < |cylFrame c p 2 + (cylLat c p v dmax).1 * cylVc c v 2|)) = true := by
      simp [hpos, hcut]
    rw [if_pos this]

/-- A valid lateral candidate keeps the base's border label. -/
lemma cylLatBorder_of_latOK {c : Cyl} {p v : Pt} {dmax : ℚ} (h : latOK c p v dmax) :
    cylLatBorder c p v dmax = (cylLat c p v dmax).2 := by
  rcases h with ⟨h0, hcut⟩
  rw [cylLatBorder]
  simp only [not_lt.mpr h0, if_false]
  rcases lt_or_eq_of_le h0 with hpos | hzero
  · have : ¬(1 < |cylFrame c p 2 + (cylLat c p v dmax).1 * cylVc c v 2|) :=
      not_lt.mpr (hcut hpos)
    simp [this]
  · simp [← hzero]

/-- A valid top-cap candidate passes its filter. -/
lemma cylTopF_of_topOK {c : Cyl} {p v : Pt} (h : topOK c p v) :
    cylTopF c p v = cylTop0 c p v := by
  rw [cylTopF, if_neg]
  push_neg
  exact ⟨h.1, h.2⟩

/-- An invalid top-cap candidate is replaced by the `1.e16` marker. -/
lemma cylTopF_of_not_topOK {c : Cyl} {p v : Pt} (h : ¬topOK c p v) :
    cylTopF c p v = big16 := by
  rw [topOK] at h
  push_neg at h
  rw [cylTopF, if_pos]
  by_cases h0 : 0 ≤ cylTop0 c p v
  · exact Or.inr (h h0)
  · exact Or.inl (not_le.mp h0)

/-- A valid bottom-cap candidate passes its filter. -/
lemma cylBotF_of_botOK {c : Cyl} {p v : Pt} (h : botOK c p v) :
    cylBotF c p v = cylBot0 c p v := by
  rw [cylBotF, if_neg]
  push_neg
  exact ⟨h.1, h.2⟩

/-- An invalid bottom-cap candidate is replaced by the `1.e16` marker. -/
lemma cylBotF_of_not_botOK {c : Cyl} {p v : Pt} (h : ¬botOK c p v) :
    cylBotF c p v = big16 := by
  rw [botOK] at h
  push_neg at h
  rw [cylBotF, if_pos]
  by_cases h0 : 0 ≤ cylBot0 c p v
  · exact Or.inr (h h0)
  · exact Or.inl (not_le.mp h0)

/-- The candidate predicate in terms of the named candidates. -/
lemma cylCand_iff (c : Cyl) (p v : Pt) (dmax t : ℚ) :
    cylCand c p v dmax t ↔
      (t = (cylLat c p v dmax).1 ∧ latOK c p v dmax) ∨
      (t = cylTop0 c p v ∧ topOK c p v) ∨
      (t = cylBot0 c p v ∧ botOK c p v) := by
  rw [cylCand, latOK, topOK, botOK, cylLat, cylTop0, cylBot0, cylVc, cylDecal]
  constructor
  · rintro (⟨ht, h1, h2⟩ | ⟨ht, h1, h2⟩ | ⟨ht, h1, h2⟩)
    · exact Or.inl ⟨ht, h1, h2⟩
    · subst ht
      exact Or.inr (Or.inl ⟨rfl, h1, h2⟩)
    · subst ht
      exact Or.inr (Or.inr ⟨rfl, h1, h2⟩)
  · rintro (⟨ht, h1, h2⟩ | ⟨ht, h1, h2⟩ | ⟨ht, h1, h2⟩)
    · exact Or.inl ⟨ht, h1, h2⟩
    · subst ht
      exact Or.inr (Or.inl ⟨rfl, h1, h2⟩)
    · subst ht
      exact Or.inr (Or.inr ⟨rfl, h1, h2⟩)

/-- With no valid candidate each filtered value is the `1.e16` marker. -/
lemma cylMin_of_no_cand {c : Cyl} {p v : Pt} {dmax : ℚ}
    (h : ¬∃ t, cylCand c p v dmax t) : cylMin c p v dmax = big16 := by
  have hlat : ¬latOK c p v dmax := fun hOK =>
    h ⟨(cylLat c p v dmax).1, (cylCand_iff c p v dmax _).mpr (Or.inl ⟨rfl, hOK⟩)⟩
  have htop : ¬topOK c p v := fun hOK =>
    h ⟨cylTop0 c p v, (cylCand_iff c p v dmax _).mpr (Or.inr (Or.inl ⟨rfl, hOK⟩))⟩
  have hbot : ¬botOK c p v := fun hOK =>
    h ⟨cylBot0 c p v, (cylCand_iff c p v dmax _).mpr (Or.inr (Or.inr ⟨rfl, hOK⟩))⟩
  rw [cylMin, cylLatF_of_not_latOK hlat, cylTopF_of_not_topOK htop, cylBotF_of_not_botOK hbot]
  simp

/-- With no valid candidate the query returns the `-1` sentinel paired
with the bottom-cap label (both cap comparisons `1.e16 = 1.e16` hold, and
the bottom assignment comes last). -/
lemma cylDist_of_no_cand {c : Cyl} {p v : Pt} {dmax : ℚ}
    (h : ¬∃ t, cylCand c p v dmax t) : cylDist c p v dmax = (-1, cylLabelBot c) := by
  have hbot : ¬botOK c p v := fun hOK =>
    h ⟨cylBot0 c p v, (cylCand_iff c p v dmax _).mpr (Or.inr (Or.inr ⟨rfl, hOK⟩))⟩
  rw [cylDist_eq, cylMin_of_no_cand h, cylBotF_of_not_botOK hbot]
  rw [if_pos rfl, if_pos rfl]

/-- When some valid candidate exists the minimum is below the marker. -/
lemma cylMin_lt_big16 {c : Cyl} {p v : Pt} {dmax : ℚ}
    (hlat : (cylLat c p v dmax).1 < big16) (htop : cylTop0 c p v < big16)
    (hbot : cylBot0 c p v < big16)
    (h : ∃ t, cylCand c p v dmax t) : cylMin c p v dmax < big16 := by
  rcases h with ⟨t, ht⟩
  rcases (cylCand_iff c p v dmax t).mp ht with ⟨rfl, hOK⟩ | ⟨rfl, hOK⟩ | ⟨rfl, hOK⟩
  · calc cylMin c p v dmax ≤ cylLatF c p v dmax := min_le_left _ _
      _ = (cylLat c p v dmax).1 := cylLatF_of_latOK hOK
      _ < big16 := hlat
  · calc cylMin c p v dmax ≤ cylTopF c p v :=
        le_trans (min_le_right _ _) (min_le_left _ _)
      _ = cylTop0 c p v := cylTopF_of_topOK hOK
      _ < big16 := htop
  · calc cylMin c p v dmax ≤ cylBotF c p v :=
        le_trans (min_le_right _ _) (min_le_right _ _)
      _ = cylBot0 c p v := cylBotF_of_botOK hOK
      _ < big16 := hbot

/-- When the minimum is below the marker it is the returned parameter. -/
lemma cylDist_fst_of_lt {c : Cyl} {p v : Pt} {dmax : ℚ}
    (h : cylMin c p v dmax < big16) : (cylDist c p v dmax).1 = cylMin c p v dmax := by
  rw [cylDist_eq]
  exact if_neg (ne_of_lt h)

/-- The minimum of the three filtered candidates is one of them. -/
lemma cylMin_choice (c : Cyl) (p v : Pt) (dmax : ℚ) :
    cylMin c p v dmax = cylLatF c p v dmax ∨ cylMin c p v dmax = cylTopF c p v ∨
      cylMin c p v dmax = cylBotF c p v := by
  rw [cylMin]
  rcases min_choice (cylLatF c p v dmax) (min (cylTopF c p v) (cylBotF c p v)) with h1 | h1
  · exact Or.inl h1
  · rcases min_choice (cylTopF c p v) (cylBotF c p v) with h2 | h2
    · exact Or.inr (Or.inl (h1.trans h2))
    · exact Or.inr (Or.inr (h1.trans h2))

/-- When a valid candidate exists the returned parameter is itself a valid
candidate. -/
lemma cylDist_fst_is_cand {c : Cyl} {p v : Pt} {dmax : ℚ}
    (hlat : (cylLat c p v dmax).1 < big16) (htop : cylTop0 c p v < big16)
    (hbot : cylBot0 c p v < big16)
    (h : ∃ t, cylCand c p v dmax t) : cylCand c p v dmax ((cylDist c p v dmax).1) := by
  have hmlt := cylMin_lt_big16 hlat htop hbot h
  rw [cylDist_fst_of_lt hmlt]
  rcases cylMin_choice c p v dmax with hm | hm | hm
  · have hOK : latOK c p v dmax := by
      by_contra hN
      rw [hm, cylLatF_of_not_latOK hN] at hmlt
      exact lt_irrefl _ hmlt
    rw [hm, cylLatF_of_latOK hOK]
    exact (cylCand_iff c p v dmax _).mpr (Or.inl ⟨rfl, hOK⟩)
  · have hOK : topOK c p v := by
      by_contra hN
      rw [hm, cylTopF_of_not_topOK hN] at hmlt
      exact lt_irrefl _ hmlt
    rw [hm, cylTopF_of_topOK hOK]
    exact (cylCand_iff c p v dmax _).mpr (Or.inr (Or.inl ⟨rfl, hOK⟩))
  · have hOK : botOK c p v := by
      by_contra hN
      rw [hm, cylBotF_of_not_botOK hN] at hmlt
      exact lt_irrefl _ hmlt
    rw [hm, cylBotF_of_botOK hOK]
    exact (cylCand_iff c p v dmax _).mpr (Or.inr (Or.inr ⟨rfl, hOK⟩))

/-- The returned parameter is a lower bound of every valid candidate. -/
lemma cylDist_fst_le_cand {c : Cyl} {p v : Pt} {dmax : ℚ}
    (hlat : (cylLat c p v dmax).1 < big16) (htop : cylTop0 c p v < big16)
    (hbot : cylBot0 c p v < big16)
    (hex : ∃ t, cylCand c p v dmax t) :
    ∀ t, cylCand c p v dmax t → (cylDist c p v dmax).1 ≤ t := by
  intro t ht
  rw [cylDist_fst_of_lt (cylMin_lt_big16 hlat htop hbot hex)]
  rcases (cylCand_iff c p v dmax t).mp ht with ⟨rfl, hOK⟩ | ⟨rfl, hOK⟩ | ⟨rfl, hOK⟩
  · rw [← cylLatF_of_latOK hOK]
    exact min_le_left _ _
  · rw [← cylTopF_of_topOK hOK]
    exact le_trans (min_le_right _ _) (min_le_left _ _)
  · rw [← cylBotF_of_botOK hOK]
    exact le_trans (min_le_right _ _) (min_le_right _ _)

/-- Label selection: bottom label whenever the minimum equals the filtered
bottom candidate; top label when it equals the filtered top candidate but
not the bottom one; the base's border for a clean lateral minimum. -/
lemma cylDist_snd_cases (c : Cyl) (p v : Pt) (dmax : ℚ) :
    (cylMin c p v dmax = cylBotF c p v → (cylDist c p v dmax).2 = cylLabelBot c) ∧
    (cylMin c p v dmax ≠ cylBotF c p v → cylMin c p v dmax = cylTopF c p v →
      (cylDist c p v dmax).2 = cylLabelTop c) ∧
    (cylMin c p v dmax ≠ cylBotF c p v → cylMin c p v dmax ≠ cylTopF c p v →
      latOK c p v dmax → (cylDist c p v dmax).2 = (cylLat c p v dmax).2) := by
  refine ⟨?_, ?_, ?_⟩
  · intro h
    rw [cylDist_eq]
    exact if_pos h
  · intro hb ht
    rw [cylDist_eq]
    simp only [if_neg hb]
    exact if_pos ht
  · intro hb ht hOK
    rw [cylDist_eq]
    simp only [if_neg hb, if_neg ht]
    exact cylLatBorder_of_latOK hOK

/-!  ## Further concrete data for the witnesses -/

/-- A third solid cylinder: radius 2, axis `z`, `z ∈ [10, 12]`,
labels `[30, 31, 32]`; overlaps `exCylB`. -/
def exCylC : Cyl :=
  mkCylinderCircle (pt3 (5/2) (5/2) 11) (pt3 2 0 0) (pt3 0 2 0) (pt3 0 0 1) [30, 31, 32] false

/-- A fluid cylinder congruent to `exCylB`, labels `[40, 41, 42]`. -/
def exCylF : Cyl :=
  mkCylinderCircle (pt3 (5/2) (5/2) 10) (pt3 2 0 0) (pt3 0 2 0) (pt3 0 0 1) [40, 41, 42] true

/-- The state after applying only the second cylinder to the seeded box. -/
def exS1b : DState := addElem exP (cylElem exCylB) (phaseA exP)

/-- The two-worker variant of the concrete parameters: the worker owns
the upper half `[2, 4)` of the global `x` index range. -/
def exP2 : DParams :=
  { sten := ⟨[iv3 1 0 0, iv3 0 1 0, iv3 0 0 1]⟩,
    dx := 1,
    boxlo := pt3 0 0 0,
    boxhi := pt3 4 4 12,
    region := fun d => if d.val = 0 then (2, 4) else if d.val = 1 then (0, 4) else (0, 12),
    lbl := fun _ => 0 }

/-- Parameters with a diagonal velocity `(2, 1, 0)` (and `(0,0,1)` to keep
every halo width positive), for the two-face witness. -/
def exP3 : DParams :=
  { sten := ⟨[iv3 2 1 0, iv3 0 0 1]⟩,
    dx := 1,
    boxlo := pt3 0 0 0,
    boxhi := pt3 4 4 12,
    region := fun d => if d.val = 2 then (0, 12) else (0, 4),
    lbl := fun _ => 0 }

/-- Coordinates of the node above the distinguished neighbor. -/
lemma ex_coord_qn : coordOf exP (iv3 3 3 10) = pt3 (5/2) (5/2) (19/2) := by
  funext d
  fin_cases d <;>
    norm_num [coordOf, physBl, exP, vmaxP, Stencil.vmax, pt3, iv3]

/-- Frame of the second cylinder at `z = 19/2`. -/
lemma ex_frameB_qn : cylFrame exCylB (pt3 (5/2) (5/2) (19/2)) = pt3 0 0 (-1/2) := by
  funext d
  fin_cases d <;>
    norm_num [cylFrame, mulVec, cyliA, cylA, inv3, det3, exCylB, mkCylinderCircle, pt3]

/-- Frame of the third cylinder at `z = 17/2`. -/
lemma ex_frameC_q : cylFrame exCylC (pt3 (5/2) (5/2) (17/2)) = pt3 0 0 (-5/2) := by
  funext d
  fin_cases d <;>
    norm_num [cylFrame, mulVec, cyliA, cylA, inv3, det3, exCylC, mkCylinderCircle, pt3]

/-- Frame of the third cylinder at `z = 19/2`. -/
lemma ex_frameC_qn : cylFrame exCylC (pt3 (5/2) (5/2) (19/2)) = pt3 0 0 (-3/2) := by
  funext d
  fin_cases d <;>
    norm_num [cylFrame, mulVec, cyliA, cylA, inv3, det3, exCylC, mkCylinderCircle, pt3]

/-- Frame of the fluid cylinder at `z = 17/2`. -/
lemma ex_frameF_q : cylFrame exCylF (pt3 (5/2) (5/2) (17/2)) = pt3 0 0 (-3/2) := by
  funext d
  fin_cases d <;>
    norm_num [cylFrame, mulVec, cyliA, cylA, inv3, det3, exCylF, mkCylinderCircle, pt3]

/-- Frame of the fluid cylinder at `z = 19/2`. -/
lemma ex_frameF_qn : cylFrame exCylF (pt3 (5/2) (5/2) (19/2)) = pt3 0 0 (-1/2) := by
  funext d
  fin_cases d <;>
    norm_num [cylFrame, mulVec, cyliA, cylA, inv3, det3, exCylF, mkCylinderCircle, pt3]

/-- The frame direction for the third cylinder. -/
lemma ex_vcC : mulVec (cyliA exCylC) (pt3 0 0 1) = pt3 0 0 1 := by
  funext d
  fin_cases d <;>
    norm_num [mulVec, cyliA, cylA, inv3, det3, exCylC, mkCylinderCircle, pt3]

/-- The frame direction for the fluid cylinder. -/
lemma ex_vcF : mulVec (cyliA exCylF) (pt3 0 0 1) = pt3 0 0 1 := by
  funext d
  fin_cases d <;>
    norm_num [mulVec, cyliA, cylA, inv3, det3, exCylF, mkCylinderCircle, pt3]

/-- The third cylinder is solid, the fluid one fluid. -/
lemma ex_fluidC : (cylElem exCylC).isfluid = false := rfl

/-- The fluid marker of the congruent fluid cylinder. -/
lemma ex_fluidF : (cylElem exCylF).isfluid = true := rfl

/-- Base projections of the third cylinder. -/
lemma ex_distF_C : exCylC.base.distF = circleDist := rfl

/-- Unit-disk test of the third cylinder. -/
lemma ex_inside_C (x y : ℚ) : exCylC.base.inside x y = decide (x ^ 2 + y ^ 2 ≤ 1) := rfl

/-- Unit-disk test of the fluid cylinder. -/
lemma ex_inside_F (x y : ℚ) : exCylF.base.inside x y = decide (x ^ 2 + y ^ 2 ≤ 1) := rfl

/-- Labels of the third cylinder. -/
lemma ex_labelsC : exCylC.labels = [30, 31, 32] := rfl

/-- The distinguished neighbor is outside the third cylinder. -/
lemma ex_insideC_q : insideB exP (cylElem exCylC) (iv3 3 3 9) = false := by
  simp only [insideB, cylElem, ex_coord_nbr, cylPointInside]
  rw [ex_frameC_q]
  norm_num [exCylC, mkCylinderCircle, circleBase, pt3, abs_of_nonneg, abs_of_nonpos]

/-- The node above it is outside the third cylinder. -/
lemma ex_insideC_qn : insideB exP (cylElem exCylC) (iv3 3 3 10) = false := by
  simp only [insideB, cylElem, ex_coord_qn, cylPointInside]
  rw [ex_frameC_qn]
  norm_num [exCylC, mkCylinderCircle, circleBase, pt3, abs_of_nonneg, abs_of_nonpos]

/-- The node above the distinguished neighbor is inside the second
cylinder. -/
lemma ex_insideB_qn : insideB exP (cylElem exCylB) (iv3 3 3 10) = true := by
  simp only [insideB, cylElem, ex_coord_qn, cylPointInside]
  rw [ex_frameB_qn]
  norm_num [exCylB, mkCylinderCircle, circleBase, pt3, abs_of_nonneg, abs_of_nonpos]

/-- The distinguished neighbor is outside the fluid cylinder. -/
lemma ex_insideF_q : insideB exP (cylElem exCylF) (iv3 3 3 9) = false := by
  simp only [insideB, cylElem, ex_coord_nbr, cylPointInside]
  rw [ex_frameF_q]
  norm_num [exCylF, mkCylinderCircle, circleBase, pt3, abs_of_nonneg, abs_of_nonpos]

/-- The node above it is inside the fluid cylinder. -/
lemma ex_insideF_qn : insideB exP (cylElem exCylF) (iv3 3 3 10) = true := by
  simp only [insideB, cylElem, ex_coord_qn, cylPointInside]
  rw [ex_frameF_qn]
  norm_num [exCylF, mkCylinderCircle, circleBase, pt3, abs_of_nonneg, abs_of_nonpos]

/-- Sub-grid lower bounds of the third cylinder. -/
lemma ex_nminC (d : Fin 3) : elemNmin exP (cylElem exCylC) d = iv3 1 1 9 d := by
  fin_cases d <;>
    norm_num [elemNmin, cylElem, exCylC, mkCylinderCircle, circleBase, npInt,
      ex_sqrtQ_zero, ex_sqrtQ_four, physBl, exP, vmaxP, Stencil.vmax, pt3, iv3,
      abs_of_nonneg, abs_of_nonpos]

/-- Sub-grid upper bounds of the third cylinder. -/
lemma ex_nmaxC (d : Fin 3) : elemNmax exP (cylElem exCylC) d = iv3 5 5 13 d := by
  fin_cases d <;>
    norm_num [elemNmax, cylElem, exCylC, mkCylinderCircle, circleBase, npInt,
      ex_sqrtQ_zero, ex_sqrtQ_four, physBl, exP, vmaxP, Stencil.vmax, szP, pt3, iv3,
      abs_of_nonneg, abs_of_nonpos]

/-- Sub-grid lower bounds of the fluid cylinder (congruent to the second
one). -/
lemma ex_nminF (d : Fin 3) : elemNmin exP (cylElem exCylF) d = iv3 1 1 8 d := by
  fin_cases d <;>
    norm_num [elemNmin, cylElem, exCylF, mkCylinderCircle, circleBase, npInt,
      ex_sqrtQ_zero, ex_sqrtQ_four, physBl, exP, vmaxP, Stencil.vmax, pt3, iv3,
      abs_of_nonneg, abs_of_nonpos]

/-- Sub-grid upper bounds of the fluid cylinder. -/
lemma ex_nmaxF (d : Fin 3) : elemNmax exP (cylElem exCylF) d = iv3 5 5 13 d := by
  fin_cases d <;>
    norm_num [elemNmax, cylElem, exCylF, mkCylinderCircle, circleBase, npInt,
      ex_sqrtQ_zero, ex_sqrtQ_four, physBl, exP, vmaxP, Stencil.vmax, szP, pt3, iv3,
      abs_of_nonneg, abs_of_nonpos]

/-- The distinguished neighbor lies in the third cylinder's sub-grid. -/
lemma ex_regC_q : regB exP (cylElem exCylC) (iv3 3 3 9) = true := by
  simp only [regB, ex_nminC, ex_nmaxC]
  norm_num [iv3]

/-- The node above it lies in the third cylinder's sub-grid. -/
lemma ex_regC_qn : regB exP (cylElem exCylC) (iv3 3 3 10) = true := by
  simp only [regB, ex_nminC, ex_nmaxC]
  norm_num [iv3]

/-- The distinguished neighbor lies in the fluid cylinder's sub-grid. -/
lemma ex_regF_q : regB exP (cylElem exCylF) (iv3 3 3 9) = true := by
  simp only [regB, ex_nminF, ex_nmaxF]
  norm_num [iv3]

/-- The node above it lies in the fluid cylinder's sub-grid. -/
lemma ex_regF_qn : regB exP (cylElem exCylF) (iv3 3 3 10) = true := by
  simp only [regB, ex_nminF, ex_nmaxF]
  norm_num [iv3]

/-- The node above the distinguished neighbor lies in the second
cylinder's sub-grid. -/
lemma ex_regB_qn : regB exP (cylElem exCylB) (iv3 3 3 10) = true := by
  simp only [regB, ex_nminB, ex_nmaxB]
  norm_num [iv3]

/-- Ray distance from the neighbor to the second cylinder along the third
velocity: the bottom-cap hit at `t = 1/2`. -/
lemma ex_cylDistB_q : cylDist exCylB (pt3 (5/2) (5/2) (17/2)) (pt3 0 0 1) 1 = (1/2, 21) := by
  rw [cylDist, ex_frameB_nbr, ex_vcB]
  simp only [ex_distF_B, ex_inside_B, ex_labelsB, cylLabelTop, cylLabelBot]
  norm_num [pt3, circleDist, big16, eps16, min_def, abs_of_nonneg, abs_of_nonpos]

/-- Ray distance from the neighbor to the third cylinder along the third
velocity: the bottom-cap hit at `t = 3/2`. -/
lemma ex_cylDistC_q : cylDist exCylC (pt3 (5/2) (5/2) (17/2)) (pt3 0 0 1) 1 = (3/2, 31) := by
  rw [cylDist, ex_frameC_q, ex_vcC]
  simp only [ex_distF_C, ex_inside_C, ex_labelsC, cylLabelTop, cylLabelBot]
  norm_num [pt3, circleDist, big16, eps16, min_def, abs_of_nonneg, abs_of_nonpos]

/-- The candidates at the neighbor. -/
lemma ex_alphaOfB_q : alphaOf exP (cylElem exCylB) (velOf exP 2) (iv3 3 3 9) = (1/2, 21) := by
  rw [alphaOf, ex_dir2, ex_coord_nbr]
  exact ex_cylDistB_q

/-- The third cylinder's candidate at the neighbor. -/
lemma ex_alphaOfC_q : alphaOf exP (cylElem exCylC) (velOf exP 2) (iv3 3 3 9) = (3/2, 31) := by
  rw [alphaOf, ex_dir2, ex_coord_nbr]
  exact ex_cylDistC_q

/-- After box seeding, the neighbor's distance along the third velocity is
the sentinel. -/
lemma ex_s0_dist_q : (phaseA exP).distF 2 (iv3 3 3 9) = valin := by
  have h0 : axisHitsB exP (mkBoxLabel exP) (velOf exP 2) 0 (iv3 3 3 9) = false := by
    rw [axisHitsB]
    norm_num [velOf, exP, iv3]
  have h1 : axisHitsB exP (mkBoxLabel exP) (velOf exP 2) 1 (iv3 3 3 9) = false := by
    rw [axisHitsB]
    norm_num [velOf, exP, iv3]
  have h2 : axisHitsB exP (mkBoxLabel exP) (velOf exP 2) 2 (iv3 3 3 9) = false := by
    rw [axisHitsB, ex_int_nbr]
    norm_num [velOf, exP, iv3, vmaxP, Stencil.vmax, szP, ex_boxlbl, faceLow, faceHigh]
  rw [phaseA, addInit]
  simp only [axisInit, h0, h1, h2, Bool.false_and, Bool.false_eq_true, if_false, initState]

/-- The occupancy written by the second cylinder marks the node above the
neighbor solid. -/
lemma ex_iooB_qn :
    iooAfter exP (cylElem exCylB) (phaseA exP) (iv3 3 3 10) = valout := by
  rw [iooAfter, ex_fluidB]
  simp only [ex_regB_qn, ex_insideB_qn, Bool.and_self, if_true, Bool.false_eq_true, if_false]

/-- At the second cylinder's own step, the neighbor's `out_cells` holds. -/
lemma ex_outcB_q :
    outCellsB exP (cylElem exCylB) (phaseA exP) (velOf exP 2) (iv3 3 3 9) = true := by
  have hsh : nShift (iv3 3 3 9) (velOf exP 2) = iv3 3 3 10 := by
    funext d
    fin_cases d <;> norm_num [nShift, velOf, exP, iv3]
  rw [outCellsB, hsh, ex_iooB_qn]
  simp

/-- The neighbor is fluid for the second cylinder. -/
lemma ex_indSolidB_q : indSolidB exP (cylElem exCylB) (iv3 3 3 9) = false := by
  rw [indSolidB, ex_fluidB, ex_insideB_nbr]
  simp

/-- The acceptance mask of the second cylinder holds at the neighbor. -/
lemma ex_indxB_q :
    indxB exP (cylElem exCylB) (phaseA exP) (velOf exP 2) (iv3 3 3 9) = true := by
  rw [indxB, ex_alphaOfB_q, ex_indSolidB_q, ex_outcB_q]
  norm_num

/-- The second cylinder alone commits `1/2` at the neighbor. -/
lemma ex_s1b_dist_q : exS1b.distF 2 (iv3 3 3 9) = 1/2 := by
  rw [exS1b, addElem_dist_solid exP (cylElem exCylB) (phaseA exP) 2 (iv3 3 3 9) ex_fluidB
    ex_velAct2 ex_regB_nbr]
  rw [if_pos ⟨ex_indxB_q, by rw [ex_alphaOfB_q, ex_s0_dist_q, valin]; norm_num⟩,
    ex_alphaOfB_q]

/-- After the second cylinder alone, the node above the neighbor is
solid. -/
lemma ex_s1b_ioo_qn : exS1b.ioo (iv3 3 3 10) = valout := by
  rw [exS1b, addElem]
  exact ex_iooB_qn

/-- The third cylinder does not reoccupy the node above the neighbor. -/
lemma ex_iooC_qn :
    iooAfter exP (cylElem exCylC) exS1b (iv3 3 3 10) = valout := by
  rw [iooAfter, ex_fluidC]
  simp only [ex_insideC_qn, Bool.and_false, Bool.false_eq_true, if_false, ex_s1b_ioo_qn]

/-- At the third cylinder's step, the neighbor's `out_cells` holds. -/
lemma ex_outcC_q :
    outCellsB exP (cylElem exCylC) exS1b (velOf exP 2) (iv3 3 3 9) = true := by
  have hsh : nShift (iv3 3 3 9) (velOf exP 2) = iv3 3 3 10 := by
    funext d
    fin_cases d <;> norm_num [nShift, velOf, exP, iv3]
  rw [outCellsB, hsh, ex_iooC_qn]
  simp

/-- The neighbor is fluid for the third cylinder. -/
lemma ex_indSolidC_q : indSolidB exP (cylElem exCylC) (iv3 3 3 9) = false := by
  rw [indSolidB, ex_fluidC, ex_insideC_q]
  simp

/-- The acceptance mask of the third cylinder holds at the neighbor. -/
lemma ex_indxC_q :
    indxB exP (cylElem exCylC) exS1b (velOf exP 2) (iv3 3 3 9) = true := by
  rw [indxB, ex_alphaOfC_q, ex_indSolidC_q, ex_outcC_q]
  norm_num

/-- The fluid cylinder reoccupies the node above the neighbor. -/
lemma ex_iooF_qn :
    iooAfter exP (cylElem exCylF) exS1b (iv3 3 3 10) = valin := by
  rw [iooAfter, ex_fluidF]
  simp only [ex_regF_qn, ex_insideF_qn, Bool.and_self, if_true]

/-- At the fluid cylinder's step, the neighbor's `out_cells` fails: the
neighbor has been filled back in. -/
lemma ex_outcF_q :
    outCellsB exP (cylElem exCylF) exS1b (velOf exP 2) (iv3 3 3 9) = false := by
  have hsh : nShift (iv3 3 3 9) (velOf exP 2) = iv3 3 3 10 := by
    funext d
    fin_cases d <;> norm_num [nShift, velOf, exP, iv3]
  rw [outCellsB, hsh, ex_iooF_qn]
  norm_num [valin, valout]

/-- The neighbor keeps its fluid occupancy at the fluid cylinder's step. -/
lemma ex_iooF_q :
    iooAfter exP (cylElem exCylF) exS1b (iv3 3 3 9) = valin := by
  rw [iooAfter, ex_fluidF]
  simp only [ex_insideF_q, Bool.and_false, Bool.false_eq_true, if_false]
  rw [exS1b, addElem]
  have hioo : iooAfter exP (cylElem exCylB) (phaseA exP) (iv3 3 3 9) = valin := by
    rw [iooAfter, ex_fluidB]
    simp only [ex_insideB_nbr, Bool.and_false, Bool.false_eq_true, if_false]
    exact ex_s0_ioo_nbr
  exact hioo

/-- A pass whose axis does not target the node changes nothing. -/
lemma axisInit_skip {P : DParams} {lbl : Fin 6 → ℤ} {vk : Fin 3 → ℤ} {iuv : Fin 3}
    {n : Node} (df : (Node → ℚ) × (Node → ℤ)) (h : axisHitsB P lbl vk iuv n = false) :
    (axisInit P lbl vk iuv df).1 n = df.1 n ∧ (axisInit P lbl vk iuv df).2 n = df.2 n := by
  rw [axisInit]
  simp [h]

/-- No face of the two-worker parameters along `y` and `z` is an
interface; along `x` the lower face is. -/
lemma ex2_boxlbl0 : mkBoxLabel exP2 0 = -2 := by
  norm_num [mkBoxLabel, exP2]

/-- The remaining faces of the two-worker parameters keep label `0`. -/
lemma ex2_boxlbl5 : mkBoxLabel exP2 5 = 0 := by
  norm_num [mkBoxLabel, globalSize, exP2, pt3]

/-- The witness node of the two-worker configuration is interior. -/
lemma ex2_int : interiorB exP2 (iv3 2 3 12) = true := by
  norm_num [interiorB, sliceMemB, vmaxP, Stencil.vmax, nHalo, szP, exP2, iv3]

/-- In the two-worker configuration, the box sweep for the third velocity
targets the witness node only through the top `z` face. -/
lemma ex2_hits2 : axisHitsB exP2 (mkBoxLabel exP2) (velOf exP2 2) 2 (iv3 2 3 12) = true := by
  have h5 : mkBoxLabel exP2 (faceHigh 2) = 0 := ex2_boxlbl5
  have hv : velOf exP2 2 = iv3 0 0 1 := rfl
  have hsz : szP exP2 2 = 12 := by norm_num [szP, exP2]
  have hvm : vmaxP exP2 2 = 1 := by norm_num [vmaxP, Stencil.vmax, exP2, iv3]
  rw [axisHitsB, ex2_int, hv]
  norm_num [iv3, hsz, hvm, h5]

/-- The two lower axes do not target it. -/
lemma ex2_hits0 : axisHitsB exP2 (mkBoxLabel exP2) (velOf exP2 2) 0 (iv3 2 3 12) = false := by
  rw [axisHitsB]
  norm_num [velOf, exP2, iv3]

/-- Nor does the second axis. -/
lemma ex2_hits1 : axisHitsB exP2 (mkBoxLabel exP2) (velOf exP2 2) 1 (iv3 2 3 12) = false := by
  rw [axisHitsB]
  norm_num [velOf, exP2, iv3]

/-- The sweep writes the top face label (`0`) at the witness node. -/
lemma ex2_flag : (phaseA exP2).flag 2 (iv3 2 3 12) = 0 := by
  have hfl : (phaseA exP2).flag 2 (iv3 2 3 12) =
      (axisInit exP2 (mkBoxLabel exP2) (velOf exP2 2) 2
        (axisInit exP2 (mkBoxLabel exP2) (velOf exP2 2) 1
          (axisInit exP2 (mkBoxLabel exP2) (velOf exP2 2) 0
            (initState.distF 2, initState.flag 2)))).2 (iv3 2 3 12) := rfl
  have e0 := axisInit_skip (P := exP2) (initState.distF 2, initState.flag 2) ex2_hits0
  have e1 := axisInit_skip (P := exP2)
    (axisInit exP2 (mkBoxLabel exP2) (velOf exP2 2) 0 (initState.distF 2, initState.flag 2))
    ex2_hits1
  have hfv : faceVal exP2 (velOf exP2 2) 2 (iv3 2 3 12) = 1/2 := by
    rw [faceVal]
    norm_num [velOf, exP2, iv3, vmaxP, Stencil.vmax, szP]
  have hguard : (axisHitsB exP2 (mkBoxLabel exP2) (velOf exP2 2) 2 (iv3 2 3 12) &&
      decide (faceVal exP2 (velOf exP2 2) 2 (iv3 2 3 12) <
        (axisInit exP2 (mkBoxLabel exP2) (velOf exP2 2) 1
          (axisInit exP2 (mkBoxLabel exP2) (velOf exP2 2) 0
            (initState.distF 2, initState.flag 2))).1 (iv3 2 3 12))) = true := by
    rw [ex2_hits2, e1.1, e0.1, hfv]
    norm_num [initState, valin]
  rw [hfl, axisInit]
  simp only [hguard, if_true]
  have hface : faceOf (velOf exP2 2) 2 = 5 := by
    rw [faceOf]
    norm_num [velOf, exP2, iv3, faceHigh]
    rfl
  rw [hface, ex2_boxlbl5]

/-- The diagonal velocity of the third parameter set. -/
lemma ex3_vel0 : velOf exP3 0 = iv3 2 1 0 := rfl

/-- Face labels of the third parameter set (single worker, all `0`). -/
lemma ex3_boxlbl (j : Fin 6) : mkBoxLabel exP3 j = 0 := by
  fin_cases j <;> norm_num [mkBoxLabel, globalSize, exP3, pt3]

/-- The witness node of the diagonal configuration is interior. -/
lemma ex3_int : interiorB exP3 (iv3 4 4 5) = true := by
  norm_num [interiorB, sliceMemB, vmaxP, Stencil.vmax, nHalo, szP, exP3, iv3]

/-- The diagonal velocity targets the witness node through the upper `x`
face. -/
lemma ex3_hits0 : axisHitsB exP3 (mkBoxLabel exP3) (velOf exP3 0) 0 (iv3 4 4 5) = true := by
  have h1 : mkBoxLabel exP3 (faceHigh 0) = 0 := ex3_boxlbl 1
  have hsz : szP exP3 0 = 4 := by norm_num [szP, exP3]
  have hvm : vmaxP exP3 0 = 2 := by norm_num [vmaxP, Stencil.vmax, exP3, iv3]
  rw [axisHitsB, ex3_int, ex3_vel0]
  norm_num [iv3, hsz, hvm, h1]

/-- It also targets it through the upper `y` face. -/
lemma ex3_hits1 : axisHitsB exP3 (mkBoxLabel exP3) (velOf exP3 0) 1 (iv3 4 4 5) = true := by
  have h3 : mkBoxLabel exP3 (faceHigh 1) = 0 := ex3_boxlbl 3
  have hsz : szP exP3 1 = 4 := by norm_num [szP, exP3]
  have hvm : vmaxP exP3 1 = 1 := by norm_num [vmaxP, Stencil.vmax, exP3, iv3]
  rw [axisHitsB, ex3_int, ex3_vel0]
  norm_num [iv3, hsz, hvm, h3]

/-- Its `z` component is zero, so the `z` axis does not target it. -/
lemma ex3_hits2 : axisHitsB exP3 (mkBoxLabel exP3) (velOf exP3 0) 2 (iv3 4 4 5) = false := by
  rw [axisHitsB, ex3_vel0]
  norm_num [iv3]

/-- The face value through the upper `x` face. -/
lemma ex3_fv0 : faceVal exP3 (velOf exP3 0) 0 (iv3 4 4 5) = 3/4 := by
  rw [faceVal, ex3_vel0]
  norm_num [iv3, szP, exP3, vmaxP, Stencil.vmax]

/-- The face value through the upper `y` face. -/
lemma ex3_fv1 : faceVal exP3 (velOf exP3 0) 1 (iv3 4 4 5) = 1/2 := by
  rw [faceVal, ex3_vel0]
  norm_num [iv3, szP, exP3, vmaxP, Stencil.vmax]

/-- The lateral answer of the second cylinder for the axial query at the
distinguished node: the sentinel, since the direction has no lateral
component. -/
lemma ex_cylLatB_p : cylLat exCylB (pt3 (5/2) (5/2) (15/2)) (pt3 0 0 1) 1 = (-1, -1) := by
  rw [cylLat, cylVc, ex_frameB_p, ex_vcB]
  simp only [ex_distF_B, ex_labelsB]
  norm_num [pt3, circleDist]

/-- The top-cap parameter of the second cylinder at the node. -/
lemma ex_cylTop0B_p : cylTop0 exCylB (pt3 (5/2) (5/2) (15/2)) (pt3 0 0 1) = 7/2 := by
  rw [cylTop0, cylDecal, cylVc, ex_vcB, ex_frameB_p]
  norm_num [pt3, eps16]

/-- The bottom-cap parameter of the second cylinder at the node. -/
lemma ex_cylBot0B_p : cylBot0 exCylB (pt3 (5/2) (5/2) (15/2)) (pt3 0 0 1) = 3/2 := by
  rw [cylBot0, cylDecal, cylVc, ex_vcB, ex_frameB_p]
  norm_num [pt3, eps16]

/-- The top cap is genuinely hit at the node. -/
lemma ex_topOKB_p : topOK exCylB (pt3 (5/2) (5/2) (15/2)) (pt3 0 0 1) := by
  rw [topOK, cylVc, ex_vcB, ex_frameB_p, ex_cylTop0B_p]
  norm_num [pt3, ex_inside_B]

/-- The bottom cap is genuinely hit at the node. -/
lemma ex_botOKB_p : botOK exCylB (pt3 (5/2) (5/2) (15/2)) (pt3 0 0 1) := by
  rw [botOK, cylVc, ex_vcB, ex_frameB_p, ex_cylBot0B_p]
  norm_num [pt3, ex_inside_B]

/-- The lateral candidate at the node is invalid (negative answer). -/
lemma ex_notLatOKB_p : ¬latOK exCylB (pt3 (5/2) (5/2) (15/2)) (pt3 0 0 1) 1 := by
  rw [latOK, ex_cylLatB_p]
  norm_num

/-- At the node the minimum of the filtered candidates is the filtered
bottom-cap candidate. -/
lemma ex_minIsBotB_p :
    cylMin exCylB (pt3 (5/2) (5/2) (15/2)) (pt3 0 0 1) 1 =
      cylBotF exCylB (pt3 (5/2) (5/2) (15/2)) (pt3 0 0 1) := by
  rw [cylMin, cylLatF_of_not_latOK ex_notLatOKB_p, cylTopF_of_topOK ex_topOKB_p,
    cylBotF_of_botOK ex_botOKB_p, ex_cylTop0B_p, ex_cylBot0B_p, big16]
  have e1 : min ((7:ℚ)/2) (3/2) = 3/2 := min_eq_right (by norm_num)
  have e2 : min ((10:ℚ)^16) (3/2) = 3/2 := min_eq_right (by norm_num)
  rw [e1, e2]

/-- A far point above the second cylinder, where nothing is hit along the
third velocity. -/
lemma ex_frameB_far : cylFrame exCylB (pt3 (5/2) (5/2) (41/2)) = pt3 0 0 (21/2) := by
  funext d
  fin_cases d <;>
    norm_num [cylFrame, mulVec, cyliA, cylA, inv3, det3, exCylB, mkCylinderCircle, pt3]

/-- The lateral answer at the far point is the sentinel. -/
lemma ex_cylLatB_far : cylLat exCylB (pt3 (5/2) (5/2) (41/2)) (pt3 0 0 1) 1 = (-1, -1) := by
  rw [cylLat, cylVc, ex_frameB_far, ex_vcB]
  simp only [ex_distF_B, ex_labelsB]
  norm_num [pt3, circleDist]

/-- The top-cap parameter at the far point is negative. -/
lemma ex_cylTop0B_far : cylTop0 exCylB (pt3 (5/2) (5/2) (41/2)) (pt3 0 0 1) = -19/2 := by
  rw [cylTop0, cylDecal, cylVc, ex_vcB, ex_frameB_far]
  norm_num [pt3, eps16]

/-- The bottom-cap parameter at the far point is negative. -/
lemma ex_cylBot0B_far : cylBot0 exCylB (pt3 (5/2) (5/2) (41/2)) (pt3 0 0 1) = -23/2 := by
  rw [cylBot0, cylDecal, cylVc, ex_vcB, ex_frameB_far]
  norm_num [pt3, eps16]

/-- No candidate exists at the far point. -/
lemma ex_no_cand_far : ¬∃ t, cylCand exCylB (pt3 (5/2) (5/2) (41/2)) (pt3 0 0 1) 1 t := by
  rintro ⟨t, ht⟩
  rcases (cylCand_iff exCylB (pt3 (5/2) (5/2) (41/2)) (pt3 0 0 1) 1 t).mp ht with
    ⟨_, hOK⟩ | ⟨_, hOK⟩ | ⟨_, hOK⟩
  · rw [latOK, ex_cylLatB_far] at hOK
    norm_num at hOK
  · rw [topOK, ex_cylTop0B_far] at hOK
    norm_num at hOK
  · rw [botOK, ex_cylBot0B_far] at hOK
    norm_num at hOK

/-- The halo corner node reads back solid after Phase A. -/
lemma ex_halo_out : (phaseA exP).ioo (iv3 0 3 3) = valout := by
  have hint : interiorB exP (iv3 0 3 3) = false := by
    norm_num [interiorB, sliceMemB, vmaxP, Stencil.vmax, nHalo, szP, exP, iv3]
  rw [phaseA, addInit]
  simp only [hint, Bool.false_eq_true, if_false]

/-- A node outside the spec region of the first cylinder. -/
lemma ex_not_specRegion : ¬specRegion exP (cylElem exCylA) (iv3 3 3 12) := by
  intro h
  have h2 := (h 2).2
  have hmax := ex_nmaxA 2
  rw [elemNmax] at hmax
  have hsz : vmaxP exP 2 + szP exP 2 = 13 := by
    norm_num [vmaxP, Stencil.vmax, szP, exP, iv3]
  have h11 : (iv3 5 5 11) (2 : Fin 3) = 11 := by norm_num [iv3]
  rw [h11, hsz] at hmax
  have hX : npInt (((cylElem exCylA).ur 2 - physBl exP 2) / exP.dx) + vmaxP exP 2 + 1 = 11 := by
    rcases le_or_lt (13 : ℤ)
        (npInt (((cylElem exCylA).ur 2 - physBl exP 2) / exP.dx) + vmaxP exP 2 + 1) with
      hle | hlt
    · rw [min_eq_left hle] at hmax
      omega
    · rwa [min_eq_right (le_of_lt hlt)] at hmax
  have hn : nHalo exP 2 = 14 := by norm_num [nHalo, szP, vmaxP, Stencil.vmax, exP, iv3]
  have h12 : (iv3 3 3 12) (2 : Fin 3) = 12 := by norm_num [iv3]
  rw [hX, hn, h12] at h2
  omega

/-!  ## The claims -/

/-- Claim C1, counterexample: in the concrete two-cylinder domain the node
at `(2.5, 2.5, 7.5)` reads back solid (`in_or_out = valout`) in the final
fields, yet its distance along the velocity `(0,0,1)` is not the
`valin` sentinel (it is `3/2`, committed by the second cylinder at a node
the first cylinder had turned solid).  This refutes
"occupancy = OUT implies distance = IN-sentinel" for the constructed
fields. -/
theorem C1_counterexample :
    exFinal.ioo exNode = valout ∧ exFinal.distF 2 exNode ≠ valin := by
  refine ⟨ex_final_ioo_p, ?_⟩
  rw [ex_final_dist_p, valin]
  norm_num

/-- Claim C1, amended: the invariant does hold after box seeding — a node
reading back solid after Phase A still stores the sentinel — and each
solid shape application resets to the sentinel the distance of every node
of its sub-grid that the shape itself classifies as solid, for every
processed velocity.  (A node turned solid by an *earlier* shape may later
receive a non-sentinel distance, as the counterexample shows.) -/
theorem C1_amended :
    (∀ (P : DParams) (k : ℕ) (n : Node),
      (phaseA P).ioo n = valout → (phaseA P).distF k n = valin) ∧
    (∀ (P : DParams) (e : Elem) (s : DState) (k : ℕ) (n : Node),
      e.isfluid = false → velActiveB P k = true → regB P e n = true →
      insideB P e n = true → (addElem P e s).distF k n = valin) :=
  ⟨phaseA_out_sentinel, addElem_solid_reset⟩

/-- Claim C1, witness for the amended statement: the halo node
`(0, 3, 3)` is solid after Phase A and stores the sentinel; the node
inside the first cylinder is reset to the sentinel by it. -/
theorem C1_witness :
    ((phaseA exP).ioo (iv3 0 3 3) = valout ∧ (phaseA exP).distF 2 (iv3 0 3 3) = valin) ∧
    (((cylElem exCylA).isfluid = false ∧ velActiveB exP 2 = true ∧
      regB exP (cylElem exCylA) exNode = true ∧ insideB exP (cylElem exCylA) exNode = true) ∧
     (addElem exP (cylElem exCylA) (phaseA exP)).distF 2 exNode = valin) :=
  ⟨⟨ex_halo_out, C1_amended.1 exP 2 (iv3 0 3 3) ex_halo_out⟩,
   ⟨⟨ex_fluidA, ex_velAct2, ex_regA_p, ex_insideA_p⟩,
    C1_amended.2 exP (cylElem exCylA) (phaseA exP) 2 exNode ex_fluidA ex_velAct2 ex_regA_p
      ex_insideA_p⟩⟩

/-- Claim C2, counterexample: the final fields of the concrete
two-cylinder domain hold the committed distance `3/2` — a non-sentinel
value strictly greater than `1` — at the node `(2.5, 2.5, 7.5)` for the
velocity `(0,0,1)`: cap-plane hits of `Cylinder.distance` are not clipped
to `max_step`, so committed distances can exceed one lattice step. -/
theorem C2_counterexample :
    exFinal.distF 2 exNode ≠ valin ∧ 1 < exFinal.distF 2 exNode := by
  rw [ex_final_dist_p, valin]
  norm_num

/-- Claim C2, amended: at every point of construction every stored
distance is either the `valin` sentinel or strictly positive (box-sweep
values are strictly positive, and committed candidates pass the
`alpha > 0` mask); the upper bound `≤ 1` claimed by the spec does not
hold. -/
theorem C2_amended (P : DParams) (elems : List Elem) (k : ℕ) (n : Node) :
    (domainBuild P elems).distF k n = valin ∨ 0 < (domainBuild P elems).distF k n := by
  rw [domainBuild]
  exact foldl_pos_preserve P elems (phaseA P) k n
    (addInit_pos_preserve P (mkBoxLabel P) initState k n (Or.inl rfl))

/-- Claim C3: the solid override rule.  First conjunct: at any node of a
solid element's sub-grid, the candidate is committed exactly when the
acceptance mask holds and the candidate is strictly smaller than the
stored value, the node is otherwise reset to the sentinel if inside the
element and untouched if outside.  Second conjunct: two overlapping solid
elements leave the smaller of their two accepted candidates at a shared
boundary node. -/
theorem C3_solid_override :
    (∀ (P : DParams) (e : Elem) (s : DState) (k : ℕ) (n : Node),
      e.isfluid = false → velActiveB P k = true → regB P e n = true →
      (addElem P e s).distF k n =
        if indxB P e s (velOf P k) n = true ∧
            (alphaOf P e (velOf P k) n).1 < s.distF k n then
          (alphaOf P e (velOf P k) n).1
        else if insideB P e n = true then valin else s.distF k n) ∧
    (∀ (P : DParams) (e1 e2 : Elem) (s : DState) (k : ℕ) (n : Node),
      e1.isfluid = false → e2.isfluid = false → velActiveB P k = true →
      regB P e1 n = true → regB P e2 n = true →
      indxB P e1 s (velOf P k) n = true →
      (alphaOf P e1 (velOf P k) n).1 < s.distF k n →
      indxB P e2 (addElem P e1 s) (velOf P k) n = true →
      (addElem P e2 (addElem P e1 s)).distF k n =
        min ((alphaOf P e1 (velOf P k) n).1) ((alphaOf P e2 (velOf P k) n).1)) :=
  ⟨addElem_dist_solid, addElem_two_solids_min⟩

/-- Claim C3, witness: applying the second then the third cylinder, the
node at `(2.5, 2.5, 8.5)` passes both acceptance masks with candidates
`1/2` and `3/2`, and ends with their minimum `1/2`. -/
theorem C3_witness :
    (((cylElem exCylB).isfluid = false ∧ (cylElem exCylC).isfluid = false ∧
      velActiveB exP 2 = true ∧ regB exP (cylElem exCylB) (iv3 3 3 9) = true ∧
      regB exP (cylElem exCylC) (iv3 3 3 9) = true ∧
      indxB exP (cylElem exCylB) (phaseA exP) (velOf exP 2) (iv3 3 3 9) = true ∧
      (alphaOf exP (cylElem exCylB) (velOf exP 2) (iv3 3 3 9)).1 <
        (phaseA exP).distF 2 (iv3 3 3 9) ∧
      indxB exP (cylElem exCylC) (addElem exP (cylElem exCylB) (phaseA exP))
        (velOf exP 2) (iv3 3 3 9) = true) ∧
     (addElem exP (cylElem exCylC) (addElem exP (cylElem exCylB) (phaseA exP))).distF 2
        (iv3 3 3 9) =
      min ((alphaOf exP (cylElem exCylB) (velOf exP 2) (iv3 3 3 9)).1)
        ((alphaOf exP (cylElem exCylC) (velOf exP 2) (iv3 3 3 9)).1)) ∧
    min ((alphaOf exP (cylElem exCylB) (velOf exP 2) (iv3 3 3 9)).1)
      ((alphaOf exP (cylElem exCylC) (velOf exP 2) (iv3 3 3 9)).1) = 1/2 := by
  have hc1 : (alphaOf exP (cylElem exCylB) (velOf exP 2) (iv3 3 3 9)).1 <
      (phaseA exP).distF 2 (iv3 3 3 9) := by
    rw [ex_alphaOfB_q, ex_s0_dist_q, valin]
    norm_num
  have hx2 : indxB exP (cylElem exCylC) (addElem exP (cylElem exCylB) (phaseA exP))
      (velOf exP 2) (iv3 3 3 9) = true := ex_indxC_q
  refine ⟨⟨⟨ex_fluidB, ex_fluidC, ex_velAct2, ex_regB_nbr, ex_regC_q, ex_indxB_q, hc1, hx2⟩,
    C3_solid_override.2 exP (cylElem exCylB) (cylElem exCylC) (phaseA exP) 2 (iv3 3 3 9)
      ex_fluidB ex_fluidC ex_velAct2 ex_regB_nbr ex_regC_q ex_indxB_q hc1 hx2⟩, ?_⟩
  rw [ex_alphaOfB_q, ex_alphaOfC_q]
  norm_num

/-- Claim C4: the fluid override rule.  First conjunct: at any node of a
fluid element's sub-grid, the candidate is committed exactly when the
acceptance mask holds and the candidate is larger than the stored value
or the stored value is the sentinel; otherwise the cleanup pass resets
fluid nodes with a non-solid neighbor to the sentinel and every other
node is untouched.  Second conjunct: a fluid element never decreases a
stored distance lying below the sentinel. -/
theorem C4_fluid_override :
    (∀ (P : DParams) (e : Elem) (s : DState) (k : ℕ) (n : Node),
      e.isfluid = true → velActiveB P k = true → regB P e n = true →
      (addElem P e s).distF k n =
        if indxB P e s (velOf P k) n = true ∧
            (s.distF k n < (alphaOf P e (velOf P k) n).1 ∨ s.distF k n = valin) then
          (alphaOf P e (velOf P k) n).1
        else if outCellsB P e s (velOf P k) n = false ∧ iooAfter P e s n = valin then valin
        else s.distF k n) ∧
    (∀ (P : DParams) (e : Elem) (s : DState) (k : ℕ) (n : Node),
      e.isfluid = true → s.distF k n < valin →
      s.distF k n ≤ (addElem P e s).distF k n) :=
  ⟨addElem_dist_fluid, fun P e s k n hf hlt => addElem_fluid_mono P e s k n hf hlt⟩

/-- Claim C4, witness: the fluid cylinder applied over the state where the
second cylinder committed `1/2` at the node `(2.5, 2.5, 8.5)`; the
characterization applies there and the stored `1/2` is not decreased. -/
theorem C4_witness :
    (((cylElem exCylF).isfluid = true ∧ velActiveB exP 2 = true ∧
      regB exP (cylElem exCylF) (iv3 3 3 9) = true ∧ exS1b.distF 2 (iv3 3 3 9) < valin) ∧
     (addElem exP (cylElem exCylF) exS1b).distF 2 (iv3 3 3 9) =
       (if indxB exP (cylElem exCylF) exS1b (velOf exP 2) (iv3 3 3 9) = true ∧
            (exS1b.distF 2 (iv3 3 3 9) <
              (alphaOf exP (cylElem exCylF) (velOf exP 2) (iv3 3 3 9)).1 ∨
             exS1b.distF 2 (iv3 3 3 9) = valin) then
          (alphaOf exP (cylElem exCylF) (velOf exP 2) (iv3 3 3 9)).1
        else if outCellsB exP (cylElem exCylF) exS1b (velOf exP 2) (iv3 3 3 9) = false ∧
            iooAfter exP (cylElem exCylF) exS1b (iv3 3 3 9) = valin then valin
        else exS1b.distF 2 (iv3 3 3 9))) ∧
    exS1b.distF 2 (iv3 3 3 9) ≤ (addElem exP (cylElem exCylF) exS1b).distF 2 (iv3 3 3 9) := by
  have hlt : exS1b.distF 2 (iv3 3 3 9) < valin := by
    rw [ex_s1b_dist_q, valin]
    norm_num
  exact ⟨⟨⟨ex_fluidF, ex_velAct2, ex_regF_q, hlt⟩,
    C4_fluid_override.1 exP (cylElem exCylF) exS1b 2 (iv3 3 3 9) ex_fluidF ex_velAct2
      ex_regF_q⟩,
    C4_fluid_override.2 exP (cylElem exCylF) exS1b 2 (iv3 3 3 9) ex_fluidF hlt⟩

/-- Claim C5, counterexample: for the second cylinder queried from
`(2.5, 2.5, 7.5)` along `(0,0,1)` with `max_step = 1`, the returned
distance is `3/2`: a nonnegative value strictly greater than `max_step`,
so the returned value is neither in `(0, max_step]` nor a negative
sentinel — cap-plane candidates are not compared against `max_step`. -/
theorem C5_counterexample :
    (cylDist exCylB (pt3 (5/2) (5/2) (15/2)) (pt3 0 0 1) 1).1 = 3/2 ∧
    0 ≤ (cylDist exCylB (pt3 (5/2) (5/2) (15/2)) (pt3 0 0 1) 1).1 ∧
    ¬((cylDist exCylB (pt3 (5/2) (5/2) (15/2)) (pt3 0 0 1) 1).1 ≤ 1) := by
  rw [ex_cylDistB_p]
  norm_num

/-- Claim C5, amended: what `Cylinder.distance` actually returns.  With no
valid candidate (lateral answer passing the axial cut, or a nonnegative
cap-plane parameter hitting inside the base) the parameter is the `-1`
sentinel; when a candidate exists — and the raw values are below the
`1.e16` marker — the returned parameter is a valid candidate and a lower
bound of all of them (so the minimum), with no upper bound by `max_step`;
and it is paired with the corresponding label: the bottom-cap label when
the minimum is the filtered bottom candidate, the top-cap label when it
is the filtered top candidate and not the bottom one, and the base's
border for a clean lateral minimum. -/
theorem C5_amended :
    ∀ (c : Cyl) (p v : Pt) (dmax : ℚ),
      (cylLat c p v dmax).1 < big16 → cylTop0 c p v < big16 → cylBot0 c p v < big16 →
      ((¬∃ t, cylCand c p v dmax t) → (cylDist c p v dmax).1 = -1) ∧
      ((∃ t, cylCand c p v dmax t) →
        cylCand c p v dmax ((cylDist c p v dmax).1) ∧
        ∀ t, cylCand c p v dmax t → (cylDist c p v dmax).1 ≤ t) ∧
      (cylMin c p v dmax = cylBotF c p v → (cylDist c p v dmax).2 = cylLabelBot c) ∧
      (cylMin c p v dmax ≠ cylBotF c p v → cylMin c p v dmax = cylTopF c p v →
        (cylDist c p v dmax).2 = cylLabelTop c) ∧
      (cylMin c p v dmax ≠ cylBotF c p v → cylMin c p v dmax ≠ cylTopF c p v →
        latOK c p v dmax → (cylDist c p v dmax).2 = (cylLat c p v dmax).2) := by
  intro c p v dmax hlat htop hbot
  refine ⟨?_, ?_, (cylDist_snd_cases c p v dmax).1, (cylDist_snd_cases c p v dmax).2.1,
    (cylDist_snd_cases c p v dmax).2.2⟩
  · intro h
    rw [cylDist_of_no_cand h]
  · intro h
    exact ⟨cylDist_fst_is_cand hlat htop hbot h, cylDist_fst_le_cand hlat htop hbot h⟩

/-- Claim C5, witness for the amended statement: at the counterexample's
query a valid candidate exists, the returned parameter is the least valid
candidate, and the minimum being the filtered bottom-cap candidate the
returned label is the bottom-cap label `21`. -/
theorem C5_witness :
    (((cylLat exCylB (pt3 (5/2) (5/2) (15/2)) (pt3 0 0 1) 1).1 < big16 ∧
      cylTop0 exCylB (pt3 (5/2) (5/2) (15/2)) (pt3 0 0 1) < big16 ∧
      cylBot0 exCylB (pt3 (5/2) (5/2) (15/2)) (pt3 0 0 1) < big16 ∧
      (∃ t, cylCand exCylB (pt3 (5/2) (5/2) (15/2)) (pt3 0 0 1) 1 t) ∧
      cylMin exCylB (pt3 (5/2) (5/2) (15/2)) (pt3 0 0 1) 1 =
        cylBotF exCylB (pt3 (5/2) (5/2) (15/2)) (pt3 0 0 1)) ∧
     cylCand exCylB (pt3 (5/2) (5/2) (15/2)) (pt3 0 0 1) 1
       ((cylDist exCylB (pt3 (5/2) (5/2) (15/2)) (pt3 0 0 1) 1).1) ∧
     (cylDist exCylB (pt3 (5/2) (5/2) (15/2)) (pt3 0 0 1) 1).2 = cylLabelBot exCylB ∧
     cylLabelBot exCylB = 21) ∧
    ∀ t, cylCand exCylB (pt3 (5/2) (5/2) (15/2)) (pt3 0 0 1) 1 t →
      (cylDist exCylB (pt3 (5/2) (5/2) (15/2)) (pt3 0 0 1) 1).1 ≤ t := by
  have h1 : (cylLat exCylB (pt3 (5/2) (5/2) (15/2)) (pt3 0 0 1) 1).1 < big16 := by
    rw [ex_cylLatB_p, big16]
    norm_num
  have h2 : cylTop0 exCylB (pt3 (5/2) (5/2) (15/2)) (pt3 0 0 1) < big16 := by
    rw [ex_cylTop0B_p, big16]
    norm_num
  have h3 : cylBot0 exCylB (pt3 (5/2) (5/2) (15/2)) (pt3 0 0 1) < big16 := by
    rw [ex_cylBot0B_p, big16]
    norm_num
  have hex : ∃ t, cylCand exCylB (pt3 (5/2) (5/2) (15/2)) (pt3 0 0 1) 1 t :=
    ⟨cylTop0 exCylB (pt3 (5/2) (5/2) (15/2)) (pt3 0 0 1),
      (cylCand_iff exCylB (pt3 (5/2) (5/2) (15/2)) (pt3 0 0 1) 1 _).mpr
        (Or.inr (Or.inl ⟨rfl, ex_topOKB_p⟩))⟩
  have hc := (C5_amended exCylB (pt3 (5/2) (5/2) (15/2)) (pt3 0 0 1) 1 h1 h2 h3).2.1 hex
  have hlbl := (C5_amended exCylB (pt3 (5/2) (5/2) (15/2)) (pt3 0 0 1) 1 h1 h2 h3).2.2.1
    ex_minIsBotB_p
  exact ⟨⟨⟨h1, h2, h3, hex, ex_minIsBotB_p⟩, hc.1, hlbl, rfl⟩, hc.2⟩

/-- Claim C6: a node outside the spec's bounding-box region of a shape
(the shape's box in grid indices, expanded by the per-axis maximum
velocity and clipped to the halo-padded local grid) has none of its
fields modified when the shape is applied. -/
theorem C6_bounding_box :
    ∀ (P : DParams) (e : Elem) (s : DState) (k : ℕ) (n : Node),
      ¬specRegion P e n →
      (addElem P e s).ioo n = s.ioo n ∧ (addElem P e s).distF k n = s.distF k n ∧
        (addElem P e s).flag k n = s.flag k n := by
  intro P e s k n h
  have hr : regB P e n = false := by
    cases hx : regB P e n
    · rfl
    · exact absurd (regB_in_specRegion hx) h
  exact addElem_outside P e s k n hr

/-- Claim C6, witness: the node `(3, 3, 12)` lies outside the first
cylinder's region, and applying the cylinder leaves its occupancy,
distance and flag unchanged. -/
theorem C6_witness :
    (¬specRegion exP (cylElem exCylA) (iv3 3 3 12)) ∧
    ((addElem exP (cylElem exCylA) (phaseA exP)).ioo (iv3 3 3 12) =
        (phaseA exP).ioo (iv3 3 3 12) ∧
     (addElem exP (cylElem exCylA) (phaseA exP)).distF 2 (iv3 3 3 12) =
        (phaseA exP).distF 2 (iv3 3 3 12) ∧
     (addElem exP (cylElem exCylA) (phaseA exP)).flag 2 (iv3 3 3 12) =
        (phaseA exP).flag 2 (iv3 3 3 12)) :=
  ⟨ex_not_specRegion,
    C6_bounding_box exP (cylElem exCylA) (phaseA exP) 2 (iv3 3 3 12) ex_not_specRegion⟩

/-- Claim C7: interface labels.  First conjunct: the box-label
reclassification turns a lower face's label into the interface sentinel
`-2` exactly when the worker's region does not start at the global start,
and an upper face's exactly when it does not end at the global end.
Second conjunct: any flag the box sweep leaves different from the initial
one is the label of a face whose label is not the interface sentinel —
interface faces never contribute labels. -/
theorem C7_interface_labels :
    (∀ (P : DParams) (i : Fin 3),
      mkBoxLabel P (faceLow i) =
        (if (P.region i).1 ≠ 0 then -2 else P.lbl (faceLow i)) ∧
      mkBoxLabel P (faceHigh i) =
        (if ((P.region i).2 : ℚ) ≠ globalSize P i then -2 else P.lbl (faceHigh i))) ∧
    (∀ (P : DParams) (lbl : Fin 6 → ℤ) (s : DState) (k : ℕ) (n : Node),
      (addInit P lbl s).distF k n ≠ s.distF k n ∨ (addInit P lbl s).flag k n ≠ s.flag k n →
      ∃ j : Fin 6, lbl j ≠ -2 ∧ (addInit P lbl s).flag k n = lbl j) :=
  ⟨mkBoxLabel_char, addInit_flag_source⟩

/-- Claim C7, witness: in the two-worker partition the left worker owns
`x ∈ [2, 4)` of a global `[0, 4)`: its low-`x` face is reclassified to
`-2`, its high-`z` face keeps the user label `0`; the box sweep writes the
flag `0` at `(2, 3, 12)`, and that flag is the label of a
non-interface face. -/
theorem C7_witness :
    (mkBoxLabel exP2 (faceLow 0) = -2 ∧ mkBoxLabel exP2 (faceHigh 2) = 0) ∧
    ((phaseA exP2).flag 2 (iv3 2 3 12) ≠ initState.flag 2 (iv3 2 3 12) ∧
     ∃ j : Fin 6, mkBoxLabel exP2 j ≠ -2 ∧
       (phaseA exP2).flag 2 (iv3 2 3 12) = mkBoxLabel exP2 j) := by
  have hne : (phaseA exP2).flag 2 (iv3 2 3 12) ≠ initState.flag 2 (iv3 2 3 12) := by
    rw [ex2_flag]
    norm_num [initState, flagNone]
  have hlow := (C7_interface_labels.1 exP2 0).1
  have hhigh := (C7_interface_labels.1 exP2 2).2
  refine ⟨⟨?_, ?_⟩, hne,
    C7_interface_labels.2 exP2 (mkBoxLabel exP2) initState 2 (iv3 2 3 12) (Or.inr hne)⟩
  · rw [hlow]
    norm_num [exP2]
  · rw [hhigh]
    norm_num [exP2, globalSize, pt3]

/-- Claim C8: constructing a sphere with a negative radius only logs the
error and continues, leaving the `radius` attribute unassigned; the
`log.info(self.__str__())` call at the end of element construction then
reads the missing attribute and raises `AttributeError`, so construction
never completes normally. -/
theorem C8_negative_radius_error :
    ∀ (c : Pt) (r : ℚ) (l : List ℤ) (f : Bool), r < 0 →
      sphereInit c r l f =
        Except.error "AttributeError: Sphere object has no attribute radius" := by
  intro c r l f hr
  rw [sphereInit]
  rw [if_neg (not_le.mpr hr)]
  rfl

/-- Claim C8, witness: radius `-1`. -/
theorem C8_witness :
    (-1 : ℚ) < 0 ∧
    sphereInit (pt3 0 0 0) (-1) [0] false =
      Except.error "AttributeError: Sphere object has no attribute radius" :=
  ⟨by norm_num, C8_negative_radius_error (pt3 0 0 0) (-1) [0] false (by norm_num)⟩

/-- Claim C9: the box sweep.  First conjunct: it never increases a stored
distance.  Second: any change it makes comes from an axis pass that
targets the node — the final values are that axis's face value and face
label and the distance strictly decreased.  Third: when the sentinel is
stored and exactly the first two axes target the node, the committed
value is the minimum of their two face values. -/
theorem C9_box_sweep :
    (∀ (P : DParams) (lbl : Fin 6 → ℤ) (s : DState) (k : ℕ) (n : Node),
      (addInit P lbl s).distF k n ≤ s.distF k n) ∧
    (∀ (P : DParams) (lbl : Fin 6 → ℤ) (s : DState) (k : ℕ) (n : Node),
      (addInit P lbl s).distF k n ≠ s.distF k n ∨ (addInit P lbl s).flag k n ≠ s.flag k n →
      ∃ iuv : Fin 3, axisHitsB P lbl (velOf P k) iuv n = true ∧
        (addInit P lbl s).distF k n = faceVal P (velOf P k) iuv n ∧
        (addInit P lbl s).flag k n = lbl (faceOf (velOf P k) iuv) ∧
        (addInit P lbl s).distF k n < s.distF k n) ∧
    (∀ (P : DParams) (lbl : Fin 6 → ℤ) (s : DState) (k : ℕ) (n : Node),
      s.distF k n = valin →
      axisHitsB P lbl (velOf P k) 0 n = true →
      axisHitsB P lbl (velOf P k) 1 n = true →
      axisHitsB P lbl (velOf P k) 2 n = false →
      (addInit P lbl s).distF k n =
        min (faceVal P (velOf P k) 0 n) (faceVal P (velOf P k) 1 n)) :=
  ⟨addInit_dist_le, addInit_change, addInit_min_two_faces⟩

/-- Claim C9, witness: with velocity `(2, 1, 0)` the node `(4, 4, 5)` is
targeted on the `x` and `y` axes with face values `3/4` and `1/2`, and the
sweep commits their minimum `1/2` — a decrease from the sentinel,
witnessed by an axis pass. -/
theorem C9_witness :
    ((initState.distF 0 (iv3 4 4 5) = valin ∧
      axisHitsB exP3 (mkBoxLabel exP3) (velOf exP3 0) 0 (iv3 4 4 5) = true ∧
      axisHitsB exP3 (mkBoxLabel exP3) (velOf exP3 0) 1 (iv3 4 4 5) = true ∧
      axisHitsB exP3 (mkBoxLabel exP3) (velOf exP3 0) 2 (iv3 4 4 5) = false) ∧
     (addInit exP3 (mkBoxLabel exP3) initState).distF 0 (iv3 4 4 5) =
       min (faceVal exP3 (velOf exP3 0) 0 (iv3 4 4 5))
         (faceVal exP3 (velOf exP3 0) 1 (iv3 4 4 5))) ∧
    (addInit exP3 (mkBoxLabel exP3) initState).distF 0 (iv3 4 4 5) = 1/2 ∧
    (addInit exP3 (mkBoxLabel exP3) initState).distF 0 (iv3 4 4 5) ≤
      initState.distF 0 (iv3 4 4 5) ∧
    (∃ iuv : Fin 3, axisHitsB exP3 (mkBoxLabel exP3) (velOf exP3 0) iuv (iv3 4 4 5) = true ∧
      (addInit exP3 (mkBoxLabel exP3) initState).distF 0 (iv3 4 4 5) =
        faceVal exP3 (velOf exP3 0) iuv (iv3 4 4 5) ∧
      (addInit exP3 (mkBoxLabel exP3) initState).flag 0 (iv3 4 4 5) =
        mkBoxLabel exP3 (faceOf (velOf exP3 0) iuv) ∧
      (addInit exP3 (mkBoxLabel exP3) initState).distF 0 (iv3 4 4 5) <
        initState.distF 0 (iv3 4 4 5)) := by
  have hs : initState.distF 0 (iv3 4 4 5) = valin := rfl
  have hmin := C9_box_sweep.2.2 exP3 (mkBoxLabel exP3) initState 0 (iv3 4 4 5) hs
    ex3_hits0 ex3_hits1 ex3_hits2
  have hval : (addInit exP3 (mkBoxLabel exP3) initState).distF 0 (iv3 4 4 5) = 1/2 := by
    rw [hmin, ex3_fv0, ex3_fv1]
    norm_num
  have hne : (addInit exP3 (mkBoxLabel exP3) initState).distF 0 (iv3 4 4 5) ≠
      initState.distF 0 (iv3 4 4 5) := by
    rw [hval, hs, valin]
    norm_num
  exact ⟨⟨⟨hs, ex3_hits0, ex3_hits1, ex3_hits2⟩, hmin⟩, hval,
    C9_box_sweep.1 exP3 (mkBoxLabel exP3) initState 0 (iv3 4 4 5),
    C9_box_sweep.2.1 exP3 (mkBoxLabel exP3) initState 0 (iv3 4 4 5) (Or.inl hne)⟩

/-- Claim C10: the no-hit label convention.  First conjunct: with no valid
candidate the cylinder query returns the `-1` sentinel paired with the
bottom-cap label (the last-written cap assignment), not a neutral value.
Second conjunct: whenever the filtered top and bottom candidates coincide
and are not above the filtered lateral one — in particular when all three
are the `1.e16` marker — the bottom-cap label wins, because the bottom
comparison is performed after the top one. -/
theorem C10_no_hit_label :
    ∀ (c : Cyl) (p v : Pt) (dmax : ℚ),
      ((¬∃ t, cylCand c p v dmax t) → cylDist c p v dmax = (-1, cylLabelBot c)) ∧
      (cylTopF c p v = cylBotF c p v → cylBotF c p v ≤ cylLatF c p v dmax →
        (cylDist c p v dmax).2 = cylLabelBot c) := by
  intro c p v dmax
  refine ⟨fun h => cylDist_of_no_cand h, fun htb hle => ?_⟩
  have hm : cylMin c p v dmax = cylBotF c p v := by
    rw [cylMin, htb, min_self]
    exact min_eq_right hle
  exact (cylDist_snd_cases c p v dmax).1 hm

/-- Claim C10, witness: queried from the far point `(2.5, 2.5, 20.5)`
along `(0,0,1)` the second cylinder has no valid candidate; the query
returns `(-1, 21)` and `21` is its bottom-cap label. -/
theorem C10_witness :
    ((¬∃ t, cylCand exCylB (pt3 (5/2) (5/2) (41/2)) (pt3 0 0 1) 1 t) ∧
     cylTopF exCylB (pt3 (5/2) (5/2) (41/2)) (pt3 0 0 1) =
       cylBotF exCylB (pt3 (5/2) (5/2) (41/2)) (pt3 0 0 1) ∧
     cylBotF exCylB (pt3 (5/2) (5/2) (41/2)) (pt3 0 0 1) ≤
       cylLatF exCylB (pt3 (5/2) (5/2) (41/2)) (pt3 0 0 1) 1) ∧
    cylDist exCylB (pt3 (5/2) (5/2) (41/2)) (pt3 0 0 1) 1 = (-1, 21) ∧
    (cylDist exCylB (pt3 (5/2) (5/2) (41/2)) (pt3 0 0 1) 1).2 = cylLabelBot exCylB := by
  have hnl : ¬latOK exCylB (pt3 (5/2) (5/2) (41/2)) (pt3 0 0 1) 1 := fun hOK =>
    ex_no_cand_far ⟨(cylLat exCylB (pt3 (5/2) (5/2) (41/2)) (pt3 0 0 1) 1).1,
      (cylCand_iff exCylB (pt3 (5/2) (5/2) (41/2)) (pt3 0 0 1) 1 _).mpr (Or.inl ⟨rfl, hOK⟩)⟩
  have hnt : ¬topOK exCylB (pt3 (5/2) (5/2) (41/2)) (pt3 0 0 1) := fun hOK =>
    ex_no_cand_far ⟨cylTop0 exCylB (pt3 (5/2) (5/2) (41/2)) (pt3 0 0 1),
      (cylCand_iff exCylB (pt3 (5/2) (5/2) (41/2)) (pt3 0 0 1) 1 _).mpr
        (Or.inr (Or.inl ⟨rfl, hOK⟩))⟩
  have hnb : ¬botOK exCylB (pt3 (5/2) (5/2) (41/2)) (pt3 0 0 1) := fun hOK =>
    ex_no_cand_far ⟨cylBot0 exCylB (pt3 (5/2) (5/2) (41/2)) (pt3 0 0 1),
      (cylCand_iff exCylB (pt3 (5/2) (5/2) (41/2)) (pt3 0 0 1) 1 _).mpr
        (Or.inr (Or.inr ⟨rfl, hOK⟩))⟩
  have htb : cylTopF exCylB (pt3 (5/2) (5/2) (41/2)) (pt3 0 0 1) =
      cylBotF exCylB (pt3 (5/2) (5/2) (41/2)) (pt3 0 0 1) := by
    rw [cylTopF_of_not_topOK hnt, cylBotF_of_not_botOK hnb]
  have hle : cylBotF exCylB (pt3 (5/2) (5/2) (41/2)) (pt3 0 0 1) ≤
      cylLatF exCylB (pt3 (5/2) (5/2) (41/2)) (pt3 0 0 1) 1 := by
    rw [cylBotF_of_not_botOK hnb, cylLatF_of_not_latOK hnl]
  have hlb : cylLabelBot exCylB = 21 := rfl
  have heq := (C10_no_hit_label exCylB (pt3 (5/2) (5/2) (41/2)) (pt3 0 0 1) 1).1 ex_no_cand_far
  refine ⟨⟨ex_no_cand_far, htb, hle⟩, ?_,
    (C10_no_hit_label exCylB (pt3 (5/2) (5/2) (41/2)) (pt3 0 0 1) 1).2 htb hle⟩
  rw [heq, hlb]

end PyLBM
